import Mathlib

/-!
Verification development for the live pose exercise instructor
(`src/App.js`).  The per-frame pipeline of `pose.onResults` is embedded
shallowly: landmark coordinates are exact rationals, joint angles are real
numbers computed with a real-valued `atan2`, wall-clock instants are
integer milliseconds, and the mutable refs/React state touched by the
callback are collected in an explicit `PipelineState` record threaded
through a per-frame step function.

Conventions used throughout:
* JavaScript numbers are modelled by `ℚ` (exact) except for the
  trigonometric angle values which live in `ℝ`.
* `Math.floor(score * 0.7)` is modelled by `(7 * score) / 10` in `ℕ`;
  the two agree for every score reachable here (score ≤ 15; the first
  double-precision disagreement is at score = 90).
* `Math.ceil(m * 0.4)` is modelled by `(2 * m + 4) / 5` and
  `Math.ceil(m * 0.3)` by `(3 * m + 9) / 10`; both agree with the
  double-precision computation on the reachable range.
* `Math.round x` (half towards +∞) is `⌊x + 1/2⌋`.
* React `useState` values read inside the callback are the values from
  the previous render (snapshots), while `useRef` cells are mutable
  within the frame; the state record keeps both kinds of fields and the
  step function reads snapshot fields from the pre-frame state.
-/

namespace PoseInstructor

/-- One landmark as delivered by the detector: normalized image
coordinates, relative depth, and a confidence in `[0,1]`. -/
structure Landmark where
  x : ℚ
  y : ℚ
  z : ℚ
  visibility : ℚ
deriving DecidableEq

/-- A landmark stripped to coordinates, as produced by
`rawLandmarks.map(lm => ({x, y, z}))` before smoothing. -/
structure Coord where
  x : ℚ
  y : ℚ
  z : ℚ
deriving DecidableEq

/-- A full detector frame: 33 landmarks, positionally indexed. -/
abbrev RawFrame := Fin 33 → Landmark

/-- A coordinate-only frame (input to smoothing and evaluation). -/
abbrev Frame := Fin 33 → Coord

/-- `{min, max}` bounds for one named metric. -/
structure Criterion where
  min : ℚ
  max : ℚ
deriving DecidableEq

/-- `{should_be_flat, max_deviation}`. -/
structure BackFlatRule where
  should_be_flat : Bool
  max_deviation : ℚ
deriving DecidableEq

/-- The named criteria a step may declare (`stepRule.criteria`); a JSON
key that is absent is `none`. -/
structure Criteria where
  left_hip_angle : Option Criterion := none
  left_knee_angle : Option Criterion := none
  right_hip_angle : Option Criterion := none
  right_knee_angle : Option Criterion := none
  left_ankle_angle : Option Criterion := none
  right_ankle_angle : Option Criterion := none
  left_elbow_angle : Option Criterion := none
  right_elbow_angle : Option Criterion := none
  left_shoulder_angle : Option Criterion := none
  right_shoulder_angle : Option Criterion := none
  ankle_height : Option Criterion := none
  knee_height : Option Criterion := none
  hip_height : Option Criterion := none
  shoulder_height : Option Criterion := none
deriving DecidableEq

/-- One step of the validation rule set. -/
structure StepDef where
  step_number : ℤ
  step_name : String
  start_time : ℚ
  end_time : ℚ
  criteria : Criteria
  back_flat : Option BackFlatRule := none
deriving DecidableEq

/-- `ideal_camera_distance` configuration. -/
structure IdealDistance where
  min_z : ℚ
  max_z : ℚ
deriving DecidableEq

/-- The loaded `validationRules.json` document. -/
structure Ruleset where
  exercise_name : String
  ideal_camera_distance : Option IdealDistance := none
  steps : List StepDef
deriving DecidableEq

/-- Placeholder step used for the (unreachable in practice) out-of-range
index into `validationRules.steps`; JavaScript would fault there. -/
def defaultStep : StepDef :=
  { step_number := 0, step_name := "", start_time := 0, end_time := 0
    criteria := {} }

/-! ## VisibilityGate -/

/-- The required landmark indices of `checkBodyVisibility`
(shoulders, hips, knees; ankles intentionally excluded). -/
def requiredPoints : List (Fin 33) := [11, 12, 23, 24, 25, 26]

/-- `checkBodyVisibility`: every required point must have
`visibility >= 0.5` (the source returns `false` on `visibility < 0.5`). -/
def checkBodyVisibility (lm : RawFrame) : Bool :=
  requiredPoints.all fun i => decide ((1 : ℚ) / 2 ≤ (lm i).visibility)

/-- `calculateCameraDistance`: mean `z` over shoulders and hips
(indices 11, 12, 23, 24; all four are always present in a full frame,
so the source's presence-count is 4). -/
def calculateCameraDistance (lm : RawFrame) : ℚ :=
  ((lm 11).z + (lm 12).z + (lm 23).z + (lm 24).z) / 4

/-- Result of `checkCameraDistance`. -/
inductive DistStatus where
  | too_close
  | too_far
  | good
  | unknown
deriving DecidableEq

/-- `checkCameraDistance` with its fixed `0.02` buffer. -/
def checkCameraDistance (rules : Ruleset) (avgZ : ℚ) : DistStatus :=
  match rules.ideal_camera_distance with
  | none => .unknown
  | some d =>
    if avgZ < d.min_z - 2 / 100 then .too_close
    else if d.max_z + 2 / 100 < avgZ then .too_far
    else .good

/-! ## MetricsExtractor -/

/-- Real-valued `Math.atan2`. -/
noncomputable def atan2 (y x : ℝ) : ℝ :=
  if 0 < x then Real.arctan (y / x)
  else if x < 0 then
    (if 0 ≤ y then Real.arctan (y / x) + Real.pi
     else Real.arctan (y / x) - Real.pi)
  else if 0 < y then Real.pi / 2
  else if y < 0 then -(Real.pi / 2)
  else 0

/-- `calculateAngle(a, b, c)`: interior angle at `b` via the difference of
`atan2` bearings, in degrees, reflected into `[0, 180]`. -/
noncomputable def calculateAngle (a b c : Coord) : ℝ :=
  let radians :=
    atan2 ((c.y : ℝ) - (b.y : ℝ)) ((c.x : ℝ) - (b.x : ℝ)) -
      atan2 ((a.y : ℝ) - (b.y : ℝ)) ((a.x : ℝ) - (b.x : ℝ))
  let angle := |radians * 180 / Real.pi|
  if 180 < angle then 360 - angle else angle

/-- `calculateBackFlatness` on possibly-missing landmarks: returns `1.0`
if a shoulder or hip is absent, otherwise the maximum of the vertical
deviation (plus doubled sitting penalty) and the halved lateral tilts. -/
def calculateBackFlatness (lm : Fin 33 → Option Coord) : ℚ :=
  match lm 11, lm 12, lm 23, lm 24 with
  | some ls, some rs, some lh, some rh =>
    let avgShoulderY := (ls.y + rs.y) / 2
    let avgHipY := (lh.y + rh.y) / 2
    let verticalDeviation := |avgShoulderY - avgHipY|
    let shoulderDeviation := |ls.y - rs.y|
    let hipDeviation := |lh.y - rh.y|
    let sittingIndicator :=
      if avgShoulderY < avgHipY then (avgHipY - avgShoulderY) * 2 else 0
    max (verticalDeviation + sittingIndicator)
      (max (shoulderDeviation * (1 / 2)) (hipDeviation * (1 / 2)))
  | _, _, _, _ => 1

/-- Total variant of `calculateBackFlatness` for full frames. -/
def calculateBackFlatnessT (lm : Frame) : ℚ :=
  let ls := lm 11
  let rs := lm 12
  let lh := lm 23
  let rh := lm 24
  let avgShoulderY := (ls.y + rs.y) / 2
  let avgHipY := (lh.y + rh.y) / 2
  let verticalDeviation := |avgShoulderY - avgHipY|
  let shoulderDeviation := |ls.y - rs.y|
  let hipDeviation := |lh.y - rh.y|
  let sittingIndicator :=
    if avgShoulderY < avgHipY then (avgHipY - avgShoulderY) * 2 else 0
  max (verticalDeviation + sittingIndicator)
    (max (shoulderDeviation * (1 / 2)) (hipDeviation * (1 / 2)))

/-! ## CriteriaEvaluator -/

/-- Scoring buffer percentage: `0.15` for knee angles
(`useLargerBuffer`), `0.10` for every other metric. -/
def bufferPercent (useLargerBuffer : Bool) : ℚ :=
  if useLargerBuffer then 15 / 100 else 10 / 100

/-- `checkRange(value, criterion, useLargerBuffer)`.  Mirrors the
JavaScript guard `!criterion || !criterion.min || !criterion.max`:
an absent criterion, or a `min` or `max` equal to `0` (falsy), makes the
check return `false` outright. -/
def checkRange {K : Type*} [LinearOrderedField K]
    (value : K) (criterion : Option Criterion) (useLargerBuffer : Bool) :
    Bool :=
  match criterion with
  | none => false
  | some c =>
    if c.min = 0 ∨ c.max = 0 then false
    else
      -- the acceptance bounds are exact rational arithmetic on the
      -- configured `min`/`max`; they are injected into `K` only for the
      -- comparison with the measured value
      let range := c.max - c.min
      let buffer := range * bufferPercent useLargerBuffer
      decide (((c.min - buffer : ℚ) : K) ≤ value) &&
        decide (value ≤ ((c.max + buffer : ℚ) : K))

/-- One `if (criteria.X) { maxScore++; if (checkRange(...)) score++ }`
block: the accumulator is the `(score, maxScore)` pair. -/
def tally {K : Type*} [LinearOrderedField K]
    (acc : ℕ × ℕ) (value : K) (criterion : Option Criterion)
    (useLargerBuffer : Bool) : ℕ × ℕ :=
  match criterion with
  | none => acc
  | some c =>
    (if checkRange value (some c) useLargerBuffer then acc.1 + 1 else acc.1,
      acc.2 + 1)

/-- The back-flatness block of `evaluateStep`, applied only when
`back_flat.should_be_flat` holds: within threshold it scores one more
point; beyond threshold the accumulated score is cut to
`Math.floor(score * 0.7)` (here `(7 * score) / 10`, which matches the
double-precision computation for every reachable score). -/
def backFlatAdjust (backFlat : Option BackFlatRule) (deviation : ℚ)
    (acc : ℕ × ℕ) : ℕ × ℕ :=
  match backFlat with
  | some bf =>
    if bf.should_be_flat then
      if deviation ≤ bf.max_deviation then (acc.1 + 1, acc.2 + 1)
      else ((7 * acc.1) / 10, acc.2 + 1)
    else acc
  | none => acc

/-- The extracted metric bundle returned by `evaluateStep`. -/
structure MetricsSnapshot where
  left_hip_angle : ℝ
  left_knee_angle : ℝ
  left_ankle_angle : ℝ
  left_elbow_angle : ℝ
  left_shoulder_angle : ℝ
  right_hip_angle : ℝ
  right_knee_angle : ℝ
  right_ankle_angle : ℝ
  right_elbow_angle : ℝ
  right_shoulder_angle : ℝ
  ankle_height : ℚ
  knee_height : ℚ
  hip_height : ℚ
  shoulder_height : ℚ
  back_flatness_deviation : ℚ

/-- `{score, maxScore, metrics}`. -/
structure EvalResult where
  score : ℕ
  maxScore : ℕ
  metrics : MetricsSnapshot

/-- `calculateAngle` on possibly-missing points: JavaScript dereferences
all three arguments unconditionally, so a missing point throws. -/
noncomputable def calcAngleE (a b c : Option Coord) : Except Unit ℝ :=
  match a, b, c with
  | some a, some b, some c => .ok (calculateAngle a b c)
  | _, _, _ => .error ()

/-- A ternary-guarded angle (`p && q && r ? calculateAngle(p,q,r) : 0`). -/
noncomputable def guardedAngle (a b c : Option Coord) : ℝ :=
  match a, b, c with
  | some a, some b, some c => calculateAngle a b c
  | _, _, _ => 0

/-- Average height `l && r ? (l.y+r.y)/2 : (l?.y || r?.y || 0)`.  The
JavaScript falsy-fallthrough on a present-but-zero `y` yields the same
numeric value as taking the present side's `y`, so the four-way match is
numerically exact. -/
def heightOf (l r : Option Coord) : ℚ :=
  match l, r with
  | some l, some r => (l.y + r.y) / 2
  | some l, none => l.y
  | none, some r => r.y
  | none, none => 0

/-- `evaluateStep` on possibly-missing landmarks, faithful to the
JavaScript evaluation order: the left/right hip and knee angle calls
dereference their landmarks unconditionally (a missing shoulder, hip,
knee or ankle throws, modelled by `Except.error`), while the ankle,
elbow, shoulder, head, spine and torso angles and the heights are
guarded and degrade to `0`, and back-flatness degrades to `1`. -/
noncomputable def evaluateStepP (lm : Fin 33 → Option Coord)
    (stepRule : StepDef) : Except Unit EvalResult := do
  let left_hip_angle ← calcAngleE (lm 11) (lm 23) (lm 25)
  let left_knee_angle ← calcAngleE (lm 23) (lm 25) (lm 27)
  let left_ankle_angle := guardedAngle (lm 25) (lm 27) (lm 31)
  let left_elbow_angle := guardedAngle (lm 11) (lm 13) (lm 15)
  let left_shoulder_angle := guardedAngle (lm 23) (lm 11) (lm 13)
  let right_hip_angle ← calcAngleE (lm 12) (lm 24) (lm 26)
  let right_knee_angle ← calcAngleE (lm 24) (lm 26) (lm 28)
  let right_ankle_angle := guardedAngle (lm 26) (lm 28) (lm 32)
  let right_elbow_angle := guardedAngle (lm 12) (lm 14) (lm 16)
  let right_shoulder_angle := guardedAngle (lm 24) (lm 12) (lm 14)
  let ankle_height := heightOf (lm 27) (lm 28)
  let knee_height := heightOf (lm 25) (lm 26)
  let hip_height := heightOf (lm 23) (lm 24)
  let shoulder_height := heightOf (lm 11) (lm 12)
  -- hip/shoulder widths, head tilt, spine and torso angles are computed
  -- by the source but consumed by nothing; kept here for fidelity.
  let _hip_width : ℚ :=
    match lm 23, lm 24 with
    | some l, some r => |l.x - r.x|
    | _, _ => 0
  let _shoulder_width : ℚ :=
    match lm 11, lm 12 with
    | some l, some r => |l.x - r.x|
    | _, _ => 0
  let _head_tilt_angle := guardedAngle (lm 7) (lm 0) (lm 8)
  let _spine_angle : ℝ :=
    match lm 11, lm 12, lm 23, lm 24 with
    | some ls, some _, some lh, some rh => calculateAngle ls lh rh
    | _, _, _, _ => 0
  let _torso_angle : ℝ :=
    match lm 11, lm 12, lm 23, lm 24 with
    | some ls, some rs, some lh, some _ => calculateAngle rs ls lh
    | _, _, _, _ => 0
  let acc : ℕ × ℕ := (0, 0)
  let acc := tally acc left_hip_angle stepRule.criteria.left_hip_angle false
  let acc := tally acc left_knee_angle stepRule.criteria.left_knee_angle true
  let acc := tally acc right_hip_angle stepRule.criteria.right_hip_angle false
  let acc := tally acc right_knee_angle stepRule.criteria.right_knee_angle true
  let acc := tally acc left_ankle_angle stepRule.criteria.left_ankle_angle false
  let acc := tally acc right_ankle_angle stepRule.criteria.right_ankle_angle false
  let acc := tally acc left_elbow_angle stepRule.criteria.left_elbow_angle false
  let acc := tally acc right_elbow_angle stepRule.criteria.right_elbow_angle false
  let acc := tally acc left_shoulder_angle stepRule.criteria.left_shoulder_angle false
  let acc := tally acc right_shoulder_angle stepRule.criteria.right_shoulder_angle false
  let acc := tally acc ankle_height stepRule.criteria.ankle_height false
  let acc := tally acc knee_height stepRule.criteria.knee_height false
  let acc := tally acc hip_height stepRule.criteria.hip_height false
  let acc := tally acc shoulder_height stepRule.criteria.shoulder_height false
  let backFlatnessDeviation := calculateBackFlatness lm
  let acc := backFlatAdjust stepRule.back_flat backFlatnessDeviation acc
  return { score := acc.1
           maxScore := max acc.2 1
           metrics :=
             { left_hip_angle, left_knee_angle, left_ankle_angle
               left_elbow_angle, left_shoulder_angle
               right_hip_angle, right_knee_angle, right_ankle_angle
               right_elbow_angle, right_shoulder_angle
               ankle_height, knee_height, hip_height, shoulder_height
               back_flatness_deviation := backFlatnessDeviation } }

/-- `evaluateStep` on a full 33-landmark frame (the only way the
per-frame pipeline ever calls it: MediaPipe frames always carry all 33
points).  Identical to `evaluateStepP` with every landmark present. -/
noncomputable def evaluateStep (lm : Frame) (stepRule : StepDef) :
    EvalResult :=
  let left_hip_angle := calculateAngle (lm 11) (lm 23) (lm 25)
  let left_knee_angle := calculateAngle (lm 23) (lm 25) (lm 27)
  let left_ankle_angle := calculateAngle (lm 25) (lm 27) (lm 31)
  let left_elbow_angle := calculateAngle (lm 11) (lm 13) (lm 15)
  let left_shoulder_angle := calculateAngle (lm 23) (lm 11) (lm 13)
  let right_hip_angle := calculateAngle (lm 12) (lm 24) (lm 26)
  let right_knee_angle := calculateAngle (lm 24) (lm 26) (lm 28)
  let right_ankle_angle := calculateAngle (lm 26) (lm 28) (lm 32)
  let right_elbow_angle := calculateAngle (lm 12) (lm 14) (lm 16)
  let right_shoulder_angle := calculateAngle (lm 24) (lm 12) (lm 14)
  let ankle_height := ((lm 27).y + (lm 28).y) / 2
  let knee_height := ((lm 25).y + (lm 26).y) / 2
  let hip_height := ((lm 23).y + (lm 24).y) / 2
  let shoulder_height := ((lm 11).y + (lm 12).y) / 2
  let acc : ℕ × ℕ := (0, 0)
  let acc := tally acc left_hip_angle stepRule.criteria.left_hip_angle false
  let acc := tally acc left_knee_angle stepRule.criteria.left_knee_angle true
  let acc := tally acc right_hip_angle stepRule.criteria.right_hip_angle false
  let acc := tally acc right_knee_angle stepRule.criteria.right_knee_angle true
  let acc := tally acc left_ankle_angle stepRule.criteria.left_ankle_angle false
  let acc := tally acc right_ankle_angle stepRule.criteria.right_ankle_angle false
  let acc := tally acc left_elbow_angle stepRule.criteria.left_elbow_angle false
  let acc := tally acc right_elbow_angle stepRule.criteria.right_elbow_angle false
  let acc := tally acc left_shoulder_angle stepRule.criteria.left_shoulder_angle false
  let acc := tally acc right_shoulder_angle stepRule.criteria.right_shoulder_angle false
  let acc := tally acc ankle_height stepRule.criteria.ankle_height false
  let acc := tally acc knee_height stepRule.criteria.knee_height false
  let acc := tally acc hip_height stepRule.criteria.hip_height false
  let acc := tally acc shoulder_height stepRule.criteria.shoulder_height false
  let backFlatnessDeviation := calculateBackFlatnessT lm
  let acc := backFlatAdjust stepRule.back_flat backFlatnessDeviation acc
  { score := acc.1
    maxScore := max acc.2 1
    metrics :=
      { left_hip_angle, left_knee_angle, left_ankle_angle
        left_elbow_angle, left_shoulder_angle
        right_hip_angle, right_knee_angle, right_ankle_angle
        right_elbow_angle, right_shoulder_angle
        ankle_height, knee_height, hip_height, shoulder_height
        back_flatness_deviation := backFlatnessDeviation } }

/-- On a full frame the partial evaluator never fails and agrees with
the total one. -/
theorem evaluateStepP_total (lm : Frame) (stepRule : StepDef) :
    evaluateStepP (fun i => some (lm i)) stepRule =
      .ok (evaluateStep lm stepRule) := rfl

/-! ## FeedbackSelector -/

/-- The correction strings `getFeedbackMessage` can return; `noFeedback`
stands for the empty string `""`. -/
inductive FeedbackMsg where
  | noFeedback
  | lieDownFlat
  | bendLeftKneeMore
  | straightenLeftKnee
  | bendRightKneeMore
  | straightenRightKnee
  | raiseLegsHigher
  | lowerLegsSlightly
  | raiseKneesHigher
  | lowerKneesSlightly
  | adjustLeftHip
  | adjustRightHip
  | adjustLeftAnkle
  | adjustRightAnkle
  | adjustLeftArm
  | adjustRightArm
  | adjustLeftShoulder
  | adjustRightShoulder
deriving DecidableEq

/-- Which side of the feedback window a value fell on. -/
inductive RangeStatus where
  | too_low
  | too_high
deriving DecidableEq

/-- Feedback buffer percentage: `0.20` for knee angles, `0.15` otherwise
(wider than the scoring buffers). -/
def feedbackBufferPercent (useLargerBuffer : Bool) : ℚ :=
  if useLargerBuffer then 20 / 100 else 15 / 100

/-- `isOutsideRange(value, criterion, useLargerBuffer)`; `none` stands
for the JavaScript `null` (no criterion, falsy bound, or in range). -/
def isOutsideRange {K : Type*} [LinearOrderedField K]
    (value : K) (criterion : Option Criterion) (useLargerBuffer : Bool) :
    Option RangeStatus :=
  match criterion with
  | none => none
  | some c =>
    if c.min = 0 ∨ c.max = 0 then none
    else
      let range := c.max - c.min
      let buffer := range * feedbackBufferPercent useLargerBuffer
      if value < ((c.min - buffer : ℚ) : K) then some .too_low
      else if ((c.max + buffer : ℚ) : K) < value then some .too_high
      else none

/-- `getFeedbackMessage(metrics, stepRule)`: step 1 is exempt from all
feedback; otherwise the checks run in the source's priority order and
the first applicable message is returned. -/
noncomputable def getFeedbackMessage (metrics : MetricsSnapshot)
    (stepRule : StepDef) : FeedbackMsg :=
  if stepRule.step_number = 1 then .noFeedback
  else
    let c := stepRule.criteria
    let backFlatBad : Bool :=
      match stepRule.back_flat with
      | some bf =>
        bf.should_be_flat &&
          decide (bf.max_deviation < metrics.back_flatness_deviation)
      | none => false
    if backFlatBad then .lieDownFlat
    else
      match isOutsideRange metrics.left_knee_angle c.left_knee_angle true with
      | some .too_low => .bendLeftKneeMore
      | some .too_high => .straightenLeftKnee
      | none =>
      match isOutsideRange metrics.right_knee_angle c.right_knee_angle true with
      | some .too_low => .bendRightKneeMore
      | some .too_high => .straightenRightKnee
      | none =>
      match isOutsideRange metrics.ankle_height c.ankle_height false with
      | some .too_low => .raiseLegsHigher
      | some .too_high => .lowerLegsSlightly
      | none =>
      match isOutsideRange metrics.knee_height c.knee_height false with
      | some .too_low => .raiseKneesHigher
      | some .too_high => .lowerKneesSlightly
      | none =>
      match isOutsideRange metrics.left_hip_angle c.left_hip_angle false with
      | some _ => .adjustLeftHip
      | none =>
      match isOutsideRange metrics.right_hip_angle c.right_hip_angle false with
      | some _ => .adjustRightHip
      | none =>
      match isOutsideRange metrics.left_ankle_angle c.left_ankle_angle false with
      | some _ => .adjustLeftAnkle
      | none =>
      match isOutsideRange metrics.right_ankle_angle c.right_ankle_angle false with
      | some _ => .adjustRightAnkle
      | none =>
      match isOutsideRange metrics.left_elbow_angle c.left_elbow_angle false with
      | some _ => .adjustLeftArm
      | none =>
      match isOutsideRange metrics.right_elbow_angle c.right_elbow_angle false with
      | some _ => .adjustRightArm
      | none =>
      match isOutsideRange metrics.left_shoulder_angle c.left_shoulder_angle false with
      | some _ => .adjustLeftShoulder
      | none =>
      match isOutsideRange metrics.right_shoulder_angle c.right_shoulder_angle false with
      | some _ => .adjustRightShoulder
      | none => .noFeedback

/-! ## StepProgressionStateMachine -/

/-- The instruction banner texts the callback can set. -/
inductive Msg where
  | initialPositioning
  | stepBackTooClose
  | moveCloserTooFar
  | holdStillConfirming (pct : ℤ)
  | starting (name : String)
  | continuing (name : String)
  | stepBackNotVisible
  | adjustPosition
  | videoPausedLieFlat
  | followTheVideo (name : String)
  | matchingTheVideo (name : String)
  | inProgress
  | greatFormKeepHolding
  | nextStep (name : String)
  | holdFor (seconds : ℤ)
  | correction (fb : FeedbackMsg)
  | keepGoingDoingWell
deriving DecidableEq

/-- `instructionType`. -/
inductive InstrType where
  | positioning
  | confirming
  | ready
  | feedback
deriving DecidableEq

/-- All session state touched by the per-frame callback.  Fields ending
in `R` mirror `useRef` cells (mutable within a frame); fields ending in
`S` mirror `useState` values (the callback reads the pre-frame snapshot
and writes the value the next frame will see).  `videoPresent` /
`videoPaused` model `referenceVideoRef.current` and its `paused` flag
(`pause()`/`play()` update `paused` synchronously).
`exerciseStartClock` is a ghost field, absent from the source: it
records the wall-clock instant at which the exercise was declared
started and is never read by the pipeline; it only lets timing claims
about "exercise start" be stated. -/
structure PipelineState where
  currentStepIdx : ℕ
  stableCounter : ℕ
  visibilityCheckFrames : ℕ
  exerciseStartedR : Bool
  readyToStartS : Bool
  exerciseStartedS : Bool
  isBodyVisibleS : Bool
  landmarkBuffer : List Frame
  lastFeedbackTime : ℤ
  lastVisibilityWarning : ℤ
  lastSpokenStep : Option String
  instructionMessage : Msg
  instructionType : InstrType
  feedback : FeedbackMsg
  metricsOut : MetricsSnapshot
  videoPresent : Bool
  videoPaused : Bool
  exerciseStartClock : Option ℤ

/-- Per-frame input: the detector frame, the wall clock (`Date.now()`,
ms), and the reference video's `currentTime` (seconds). -/
structure FrameInput where
  landmarks : RawFrame
  now : ℤ
  videoTime : ℚ

def SMOOTHING_FRAMES : ℕ := 5
def REQUIRED_STABLE_FRAMES : ℕ := 10
def FEEDBACK_COOLDOWN : ℤ := 15000
def VISIBILITY_WARNING_INTERVAL : ℤ := 15000

/-- `Math.round` (round half towards positive infinity). -/
def jsRound (q : ℚ) : ℤ := ⌊q + 1 / 2⌋

/-- Confirmation progress `Math.min(count / 30, 1)`. -/
def confirmProgress (count : ℕ) : ℚ := min ((count : ℚ) / 30) 1

/-- `validationRules.steps[i].step_name` with the placeholder default. -/
def stepNameAt (rules : Ruleset) (i : ℕ) : String :=
  (rules.steps.getD i defaultStep).step_name

/-- Update `lastVisibilityWarningRef` when the rate limiter lets a
spoken positioning warning through. -/
def visWarn (s : PipelineState) (now : ℤ) : PipelineState :=
  if VISIBILITY_WARNING_INTERVAL < now - s.lastVisibilityWarning then
    { s with lastVisibilityWarning := now }
  else s

/-- The visibility / distance / confirmation block of the callback
(everything before the `if (!readyToStart) return` gate).  `s` is the
pre-frame state; its `readyToStartS` and `exerciseStartedS` fields are
the React snapshots the block reads. -/
def visPhase (rules : Ruleset) (s : PipelineState) (inp : FrameInput) :
    PipelineState :=
  let bodyVisible := checkBodyVisibility inp.landmarks
  let distStatus :=
    checkCameraDistance rules (calculateCameraDistance inp.landmarks)
  if bodyVisible then
    if distStatus = .too_close then
      visWarn
        { s with visibilityCheckFrames := 0
                 instructionMessage := .stepBackTooClose
                 instructionType := .positioning
                 readyToStartS := false
                 isBodyVisibleS := false } inp.now
    else if distStatus = .too_far then
      visWarn
        { s with visibilityCheckFrames := 0
                 instructionMessage := .moveCloserTooFar
                 instructionType := .positioning
                 readyToStartS := false
                 isBodyVisibleS := false } inp.now
    else
      -- distance good (or unknown): proceed with the confirmation logic
      let vis := s.visibilityCheckFrames + 1
      if !s.exerciseStartedR then
        let s1 :=
          { s with visibilityCheckFrames := vis
                   instructionMessage :=
                     .holdStillConfirming (jsRound (confirmProgress vis * 100))
                   instructionType := .confirming }
        if 30 < vis ∧ s.readyToStartS = false then
          { s1 with readyToStartS := true
                    isBodyVisibleS := true
                    exerciseStartedS := true
                    exerciseStartedR := true
                    instructionType := .ready
                    instructionMessage := .starting (stepNameAt rules 0)
                    videoPaused :=
                      if s1.videoPresent then false else s1.videoPaused
                    exerciseStartClock := some inp.now }
        else s1
      else
        let s1 := { s with visibilityCheckFrames := vis
                           isBodyVisibleS := true }
        if s.readyToStartS = false then
          { s1 with readyToStartS := true
                    instructionMessage :=
                      .continuing (stepNameAt rules s1.currentStepIdx)
                    instructionType := .ready
                    videoPaused :=
                      if s1.videoPresent && s1.videoPaused then false
                      else s1.videoPaused }
        else s1
  else
    let s1 := { s with visibilityCheckFrames := 0 }
    let s2 :=
      if !s1.exerciseStartedR then
        { s1 with instructionMessage := .stepBackNotVisible
                  instructionType := .positioning
                  readyToStartS := false
                  isBodyVisibleS := false }
      else
        { s1 with instructionMessage := .adjustPosition
                  instructionType := .positioning
                  readyToStartS := false
                  isBodyVisibleS := false
                  videoPaused :=
                    if s1.videoPresent && !s1.videoPaused then true
                    else s1.videoPaused }
    visWarn s2 inp.now

/-- Strip a raw frame to coordinates (`{x, y, z}`). -/
def stripFrame (lm : RawFrame) : Frame :=
  fun i => { x := (lm i).x, y := (lm i).y, z := (lm i).z }

/-- `landmarkBufferRef.push(...)` followed by `shift()` past capacity. -/
def pushTrim (buf : List Frame) (f : Frame) : List Frame :=
  let b := buf ++ [f]
  if SMOOTHING_FRAMES < b.length then b.tail else b

/-- The sliding-window mean: per landmark, sum over the buffered frames
divided by `SMOOTHING_FRAMES` (the source divides by the constant 5,
not by the buffer length). -/
def smoothFrame (buf : List Frame) : Frame := fun i =>
  { x := (buf.map fun f => (f i).x).sum / (SMOOTHING_FRAMES : ℚ)
    y := (buf.map fun f => (f i).y).sum / (SMOOTHING_FRAMES : ℚ)
    z := (buf.map fun f => (f i).z).sum / (SMOOTHING_FRAMES : ℚ) }

/-- The video-current step scan: the first step whose
`[start_time, end_time)` contains `t`, else the fallback
(`currentStepIndexRef.current`). -/
def videoStepScan (steps : List StepDef) (t : ℚ) (fallback : ℕ) : ℕ :=
  match steps.findIdx?
      (fun st => decide (st.start_time ≤ t) && decide (t < st.end_time)) with
  | some i => i
  | none => fallback

/-- Video time read by the callback: `referenceVideoRef.current ?
referenceVideoRef.current.currentTime : 0`. -/
def vTimeOf (s : PipelineState) (inp : FrameInput) : ℚ :=
  if s.videoPresent then inp.videoTime else 0

/-- The video-current step index computed at the top of the active
section. -/
def vIdxOf (rules : Ruleset) (s : PipelineState) (inp : FrameInput) : ℕ :=
  videoStepScan rules.steps (vTimeOf s inp) s.currentStepIdx

/-- The video-current step definition. -/
def vStepOf (rules : Ruleset) (s : PipelineState) (inp : FrameInput) :
    StepDef :=
  rules.steps.getD (vIdxOf rules s inp) defaultStep

/-- The step after the video-current one (used by the advancement
boundary check). -/
def nextStepOf (rules : Ruleset) (s : PipelineState) (inp : FrameInput) :
    StepDef :=
  rules.steps.getD (vIdxOf rules s inp + 1) defaultStep

/-- The evaluation the active section performs every frame: the user's
smoothed pose against the video-current step. -/
noncomputable def evalOf (rules : Ruleset) (s : PipelineState)
    (inp : FrameInput) : EvalResult :=
  evaluateStep (smoothFrame s.landmarkBuffer) (vStepOf rules s inp)

/-- `Math.ceil(m * 0.4)` for the passing threshold. -/
def ceil04 (m : ℕ) : ℕ := (2 * m + 4) / 5

/-- `Math.ceil(m * 0.3)` for the improving threshold. -/
def ceil03 (m : ℕ) : ℕ := (3 * m + 9) / 10

/-- `isPassing`: `score >= Math.ceil(maxScore * 0.4)`. -/
noncomputable def isPassingOf (rules : Ruleset) (s : PipelineState)
    (inp : FrameInput) : Bool :=
  decide (ceil04 (evalOf rules s inp).maxScore ≤ (evalOf rules s inp).score)

/-- `backFlatFailed`: the video-current step requires a flat back and
the measured deviation exceeds its threshold. -/
def backFlatFailedB (stepRule : StepDef) (deviation : ℚ) : Bool :=
  match stepRule.back_flat with
  | some bf => bf.should_be_flat && decide (bf.max_deviation < deviation)
  | none => false

/-- The back-flatness video control: pause (with a warning banner) when
flatness fails while the video plays; resume when flatness is restored,
the video is paused and the exercise-started snapshot is set. -/
def backFlatVideoCtl (startedSnap : Bool) (stepRule : StepDef)
    (deviation : ℚ) (s : PipelineState) : PipelineState :=
  let failed := backFlatFailedB stepRule deviation
  if failed && s.videoPresent && !s.videoPaused then
    { s with videoPaused := true
             instructionType := .feedback
             instructionMessage := .videoPausedLieFlat }
  else if !failed && s.videoPresent && s.videoPaused && startedSnap then
    { s with videoPaused := false }
  else s

/-- The `paused` flag as the catch-up branch reads it, i.e. after the
back-flatness control may have paused or resumed the video. -/
noncomputable def pausedAtBranch (rules : Ruleset) (startedSnap : Bool)
    (s : PipelineState) (inp : FrameInput) : Bool :=
  (backFlatVideoCtl startedSnap (vStepOf rules s inp)
      (evalOf rules s inp).metrics.back_flatness_deviation
      { s with metricsOut := (evalOf rules s inp).metrics }).videoPaused

/-- Update `lastFeedbackTimeRef` when the spoken-feedback rate limiter
fires. -/
def fbCooldown (s : PipelineState) (now : ℤ) : PipelineState :=
  if FEEDBACK_COOLDOWN < now - s.lastFeedbackTime then
    { s with lastFeedbackTime := now }
  else s

/-- The catch-up branch of the active section (video ahead of the user
and still playing): failing evaluation surfaces the rate-limited
follow-the-video banner without advancing; passing evaluation snaps the
tracked index to the video-current index and resets the stability
counter. -/
noncomputable def catchUpBranch (videoStep : StepDef) (videoStepIndex : ℕ)
    (isPassing : Bool) (now : ℤ) (s2 : PipelineState) : PipelineState :=
  if !isPassing then
    fbCooldown
      { s2 with instructionType := .feedback
                instructionMessage := .followTheVideo videoStep.step_name }
      now
  else
    { s2 with instructionType := .ready
              instructionMessage := .matchingTheVideo videoStep.step_name
              currentStepIdx := videoStepIndex
              stableCounter := 0 }

/-- The stability/advancement logic (`if (isPassing) { ... } else
stableCounter = 0`): a passing frame increments the counter, and the
index advances by one only at the video-current step, with the counter
at threshold, and once the video time has reached the next step's
`start_time`; short of the boundary a positive rounded remainder shows
the hold-for banner. -/
noncomputable def stableSection (rules : Ruleset)
    (videoStepIndex stepIndex : ℕ) (currentVideoTime : ℚ)
    (isPassing : Bool) (s2 : PipelineState) : PipelineState :=
  if isPassing then
    let s4 := { s2 with stableCounter := s2.stableCounter + 1
                        instructionType := .ready
                        instructionMessage := .greatFormKeepHolding }
    if stepIndex = videoStepIndex ∧
        REQUIRED_STABLE_FRAMES ≤ s4.stableCounter then
      if videoStepIndex < rules.steps.length - 1 then
        let nextStep := rules.steps.getD (videoStepIndex + 1) defaultStep
        if nextStep.start_time ≤ currentVideoTime then
          { s4 with stableCounter := 0
                    currentStepIdx := videoStepIndex + 1
                    instructionMessage := .nextStep nextStep.step_name
                    lastSpokenStep := some nextStep.step_name }
        else
          let timeLeft := jsRound (nextStep.start_time - currentVideoTime)
          if 0 < timeLeft then
            { s4 with instructionMessage := .holdFor timeLeft }
          else s4
      else s4
    else if stepIndex < videoStepIndex then { s4 with stableCounter := 0 }
    else s4
  else { s2 with stableCounter := 0 }

/-- The trailing feedback block (`if (!isPassing) { ... } else
setFeedback("")`). -/
noncomputable def feedbackSection (metrics : MetricsSnapshot)
    (videoStep : StepDef) (score maxScore : ℕ) (isPassing : Bool)
    (now : ℤ) (s3 : PipelineState) : PipelineState :=
  if !isPassing then
    let fb := getFeedbackMessage metrics videoStep
    let s4 := { s3 with feedback := fb }
    if fb ≠ .noFeedback then
      fbCooldown
        { s4 with instructionType := .feedback
                  instructionMessage := .correction fb } now
    else
      let s5 := { s4 with feedback := .noFeedback }
      if ceil03 maxScore ≤ score then
        { s5 with instructionType := .ready
                  instructionMessage := .keepGoingDoingWell }
      else s5
  else { s3 with feedback := .noFeedback }

/-- The active-exercise section of the callback: runs once the smoothing
buffer holds `SMOOTHING_FRAMES` frames.  It evaluates the smoothed pose
against the video-current step, applies the back-flatness video
control, then takes exactly one of: the catch-up branch (video ahead
and playing), the mount-relative grace-period early return, or the
stability/advancement logic followed by feedback selection.
`startedSnap` is the React `exerciseStarted` snapshot. -/
noncomputable def activePart (rules : Ruleset) (mount : ℤ)
    (startedSnap : Bool) (s : PipelineState) (inp : FrameInput) :
    PipelineState :=
  let currentVideoTime := vTimeOf s inp
  let videoStepIndex := vIdxOf rules s inp
  let videoStep := vStepOf rules s inp
  let r := evalOf rules s inp
  let s1 := { s with metricsOut := r.metrics }
  let s2 := backFlatVideoCtl startedSnap videoStep
    r.metrics.back_flatness_deviation s1
  let isPassing := decide (ceil04 r.maxScore ≤ r.score)
  let stepIndex := s2.currentStepIdx
  if stepIndex < videoStepIndex ∧ s2.videoPresent = true ∧
      s2.videoPaused = false then
    catchUpBranch videoStep videoStepIndex isPassing inp.now s2
  else if inp.now - mount < 5000 then
    { s2 with instructionType := .ready, instructionMessage := .inProgress }
  else
    feedbackSection r.metrics videoStep r.score r.maxScore isPassing inp.now
      (stableSection rules videoStepIndex stepIndex currentVideoTime
        isPassing s2)

/-- The exercise-processing tail of the callback: gated on the
`readyToStart` snapshot, it pushes the stripped frame into the sliding
window and, once the window is full, runs the active section. -/
noncomputable def exercisePhase (rules : Ruleset) (mount : ℤ)
    (readySnap startedSnap : Bool) (s : PipelineState)
    (inp : FrameInput) : PipelineState :=
  if readySnap then
    let s1 := { s with
      landmarkBuffer := pushTrim s.landmarkBuffer (stripFrame inp.landmarks) }
    if SMOOTHING_FRAMES ≤ s1.landmarkBuffer.length then
      activePart rules mount startedSnap s1 inp
    else s1
  else s

/-- One full `pose.onResults` callback on a frame that carries
landmarks: the visibility/confirmation block, then the exercise tail.
The tail's `readyToStart` / `exerciseStarted` gates read the React
snapshots of the pre-frame state, not the values the block just set. -/
noncomputable def frameStep (rules : Ruleset) (mount : ℤ)
    (s : PipelineState) (inp : FrameInput) : PipelineState :=
  exercisePhase rules mount s.readyToStartS s.exerciseStartedS
    (visPhase rules s inp) inp

/-- Process a sequence of frames. -/
noncomputable def runFrames (rules : Ruleset) (mount : ℤ)
    (s : PipelineState) (l : List FrameInput) : PipelineState :=
  l.foldl (frameStep rules mount) s

/-! ## Concrete fixtures used by witnesses and counterexamples -/

/-- The origin coordinate. -/
def zCoord : Coord := { x := 0, y := 0, z := 0 }

/-- A fully-confident landmark at the origin. -/
def zLm : Landmark := { x := 0, y := 0, z := 0, visibility := 1 }

/-- A raw frame with every landmark at the origin, fully visible. -/
def zRaw : RawFrame := fun _ => zLm

/-- A coordinate frame with every landmark at the origin. -/
def zF : Frame := fun _ => zCoord

/-- The all-zero metrics record. -/
noncomputable def zMetrics : MetricsSnapshot :=
  { left_hip_angle := 0, left_knee_angle := 0, left_ankle_angle := 0
    left_elbow_angle := 0, left_shoulder_angle := 0
    right_hip_angle := 0, right_knee_angle := 0, right_ankle_angle := 0
    right_elbow_angle := 0, right_shoulder_angle := 0
    ankle_height := 0, knee_height := 0, hip_height := 0
    shoulder_height := 0, back_flatness_deviation := 0 }

/-- Step 1 of the witness rule set; the all-zero pose passes its
`ankle_height` window `[-1, 1]`. -/
def stepPass : StepDef :=
  { step_number := 1, step_name := "start_position", start_time := 0
    end_time := 10
    criteria := { ankle_height := some { min := -1, max := 1 } } }

/-- Step 2 variant the all-zero pose also passes. -/
def stepPassB : StepDef :=
  { step_number := 2, step_name := "leg_lift", start_time := 10
    end_time := 20
    criteria := { ankle_height := some { min := -1, max := 1 } } }

/-- Step 2 variant the all-zero pose fails (`ankle_height` must be in
`[5, 7]`). -/
def stepFailB : StepDef :=
  { step_number := 2, step_name := "leg_lift", start_time := 10
    end_time := 20
    criteria := { ankle_height := some { min := 5, max := 7 } } }

/-- Witness rule set whose second step the zero pose passes. -/
def rulesPass : Ruleset :=
  { exercise_name := "demo", steps := [stepPass, stepPassB] }

/-- Witness rule set whose second step the zero pose fails. -/
def rulesFail : Ruleset :=
  { exercise_name := "demo", steps := [stepPass, stepFailB] }

/-- A state in the middle of an active exercise: ready, started, full
smoothing buffer, video present and playing. -/
noncomputable def sActive : PipelineState :=
  { currentStepIdx := 0, stableCounter := 0, visibilityCheckFrames := 40
    exerciseStartedR := true, readyToStartS := true
    exerciseStartedS := true, isBodyVisibleS := true
    landmarkBuffer := List.replicate 5 zF
    lastFeedbackTime := 0, lastVisibilityWarning := 0
    lastSpokenStep := none
    instructionMessage := .inProgress, instructionType := .ready
    feedback := .noFeedback, metricsOut := zMetrics
    videoPresent := true, videoPaused := false
    exerciseStartClock := some 0 }

/-! ## Claim C10 -/

/-- C10: for every metrics snapshot and every step whose `step_number`
equals 1, `getFeedbackMessage` returns the empty string, so no
correction message — not even the highest-priority back-flatness
warning — is ever produced for step 1. -/
theorem step_one_gets_no_feedback (metrics : MetricsSnapshot)
    (stepRule : StepDef) (h : stepRule.step_number = 1) :
    getFeedbackMessage metrics stepRule = .noFeedback := by
  unfold getFeedbackMessage
  rw [if_pos h]

theorem step_one_gets_no_feedback_witness :
    stepPass.step_number = 1 ∧
      getFeedbackMessage zMetrics stepPass = .noFeedback :=
  ⟨rfl, step_one_gets_no_feedback zMetrics stepPass rfl⟩

/-! ## Claim C6 -/

/-- C6: when a step requires a flat back, a deviation beyond
`max_deviation` leaves the final score at `⌊0.7 · raw score⌋` (here
`(7 · score) / 10`), while a deviation within threshold adds one point;
with the non-back accumulator fixed, the penalized final score is
strictly below the passing one. -/
theorem back_flat_penalty_strict (bf : BackFlatRule) (acc : ℕ × ℕ)
    (dFail dPass : ℚ) (hflat : bf.should_be_flat = true)
    (hfail : bf.max_deviation < dFail) (hpass : dPass ≤ bf.max_deviation) :
    (backFlatAdjust (some bf) dFail acc).1 = (7 * acc.1) / 10 ∧
      (backFlatAdjust (some bf) dPass acc).1 = acc.1 + 1 ∧
      (backFlatAdjust (some bf) dFail acc).1 <
        (backFlatAdjust (some bf) dPass acc).1 := by
  have hdiv : (7 * acc.1) / 10 ≤ acc.1 :=
    Nat.div_le_of_le_mul (by omega)
  have hnot : ¬(dFail ≤ bf.max_deviation) := not_le.mpr hfail
  simp only [backFlatAdjust, hflat, if_true, if_neg hnot, if_pos hpass]
  refine ⟨by trivial, by trivial, by omega⟩

theorem back_flat_penalty_strict_witness :
    (({ should_be_flat := true, max_deviation := 1 / 10 } :
        BackFlatRule).max_deviation < 1 ∧
      (0 : ℚ) ≤ ({ should_be_flat := true, max_deviation := 1 / 10 } :
        BackFlatRule).max_deviation) ∧
      ((backFlatAdjust (some { should_be_flat := true, max_deviation := 1 / 10 })
            1 (3, 4)).1 = (7 * 3) / 10 ∧
        (backFlatAdjust (some { should_be_flat := true, max_deviation := 1 / 10 })
            0 (3, 4)).1 = 3 + 1 ∧
        (backFlatAdjust (some { should_be_flat := true, max_deviation := 1 / 10 })
            1 (3, 4)).1 <
          (backFlatAdjust (some { should_be_flat := true, max_deviation := 1 / 10 })
            0 (3, 4)).1) :=
  ⟨⟨by norm_num, by norm_num⟩,
    back_flat_penalty_strict { should_be_flat := true, max_deviation := 1 / 10 }
      (3, 4) 1 0 rfl (by norm_num) (by norm_num)⟩

/-! ## Claim C5 -/

/-- C5 counterexample: the criterion `{min: 0, max: 10}` has numeric
bounds and the value `5` lies inside the buffered window
`[0 - 1, 10 + 1]`, yet `checkRange` returns `false`, because the
JavaScript guard `!criterion.min` treats the bound `0` as missing. -/
theorem zero_bound_never_passes :
    checkRange (5 : ℚ) (some { min := 0, max := 10 }) false = false ∧
      (0 : ℚ) - ((10 : ℚ) - 0) * bufferPercent false ≤ 5 ∧
      (5 : ℚ) ≤ 10 + ((10 : ℚ) - 0) * bufferPercent false := by
  refine ⟨by decide, ?_, ?_⟩ <;> norm_num [bufferPercent]

/-- C5 (amended): provided `min ≠ 0` and `max ≠ 0`, a declared metric
passes scoring iff its value lies within `[min - buffer, max + buffer]`
with `buffer = (max - min) · bufferPercent`, where `bufferPercent` is
`0.15` with the lenient knee flag and `0.10` otherwise; each declared
metric adds exactly one point to `maxScore` and one point to `score`
exactly when it passes. -/
theorem buffered_window_characterizes_pass {K : Type*}
    [LinearOrderedField K] (value : K) (c : Criterion) (larger : Bool)
    (hmin : c.min ≠ 0) (hmax : c.max ≠ 0) :
    (checkRange value (some c) larger = true ↔
      (c.min : K) - ((c.max : K) - (c.min : K)) *
          ((bufferPercent larger : ℚ) : K) ≤ value ∧
        value ≤ (c.max : K) + ((c.max : K) - (c.min : K)) *
          ((bufferPercent larger : ℚ) : K)) ∧
      bufferPercent true = 15 / 100 ∧ bufferPercent false = 10 / 100 ∧
      ∀ acc : ℕ × ℕ,
        (tally acc value (some c) larger).2 = acc.2 + 1 ∧
        (checkRange value (some c) larger = true →
          (tally acc value (some c) larger).1 = acc.1 + 1) ∧
        (checkRange value (some c) larger = false →
          (tally acc value (some c) larger).1 = acc.1) := by
  have hguard : ¬(c.min = 0 ∨ c.max = 0) := by
    rintro (h | h) <;> [exact hmin h; exact hmax h]
  refine ⟨?_, rfl, rfl, ?_⟩
  · simp only [checkRange]
    rw [if_neg hguard]
    simp only [Bool.and_eq_true, decide_eq_true_eq, Rat.cast_sub,
      Rat.cast_add, Rat.cast_mul]
  · intro acc
    refine ⟨rfl, ?_, ?_⟩ <;> intro h <;> simp [tally, h]

theorem buffered_window_characterizes_pass_witness :
    ((1 : ℚ) ≠ 0 ∧ (10 : ℚ) ≠ 0) ∧
      ((checkRange (5 : ℚ) (some { min := 1, max := 10 }) false = true ↔
        ((1 : ℚ) : ℚ) - (((10 : ℚ) : ℚ) - ((1 : ℚ) : ℚ)) *
            ((bufferPercent false : ℚ) : ℚ) ≤ 5 ∧
          (5 : ℚ) ≤ ((10 : ℚ) : ℚ) + (((10 : ℚ) : ℚ) - ((1 : ℚ) : ℚ)) *
            ((bufferPercent false : ℚ) : ℚ)) ∧
      bufferPercent true = 15 / 100 ∧ bufferPercent false = 10 / 100 ∧
      ∀ acc : ℕ × ℕ,
        (tally acc (5 : ℚ) (some { min := 1, max := 10 }) false).2 = acc.2 + 1 ∧
        (checkRange (5 : ℚ) (some { min := 1, max := 10 }) false = true →
          (tally acc (5 : ℚ) (some { min := 1, max := 10 }) false).1 = acc.1 + 1) ∧
        (checkRange (5 : ℚ) (some { min := 1, max := 10 }) false = false →
          (tally acc (5 : ℚ) (some { min := 1, max := 10 }) false).1 = acc.1)) :=
  ⟨⟨by norm_num, by norm_num⟩,
    buffered_window_characterizes_pass (5 : ℚ) { min := 1, max := 10 } false
      (by norm_num) (by norm_num)⟩

/-! ## Claim C4 -/

/-- `guardedAngle` degrades to `0` when its third point is missing. -/
theorem guardedAngle_none_right (a b : Option Coord) :
    guardedAngle a b none = 0 := by
  cases a <;> cases b <;> rfl

/-- `guardedAngle` degrades to `0` when its middle point is missing. -/
theorem guardedAngle_none_mid (a c : Option Coord) :
    guardedAngle a none c = 0 := by
  cases a <;> cases c <;> rfl

/-- The landmark indices the unguarded hip/knee angle calls
dereference: shoulders, hips, knees, ankles. -/
def corePoints : List (Fin 33) := [11, 12, 23, 24, 25, 26, 27, 28]

/-- C4 counterexample: a frame whose left shoulder (index 11) is absent
makes `evaluateStep` fail outright — the left hip angle call
`calculateAngle(l_shoulder, l_hip, l_knee)` dereferences the missing
point (a `TypeError` in JavaScript) instead of degrading to `0`. -/
theorem missing_shoulder_aborts_evaluation :
    evaluateStepP (fun i => if i = 11 then none else some zCoord)
      stepPass = .error () := rfl

/-- `Except` bind on a success reduces definitionally. -/
theorem exBind_ok {e a b : Type} (x : a) (f : a → Except e b) :
    (Except.ok x : Except e a) >>= f = f x := rfl

/-- `pure` for `Except` is `Except.ok`. -/
theorem exPure_eq {e a : Type} (x : a) :
    (pure x : Except e a) = Except.ok x := rfl

/-- C4 (amended): step evaluation is total on every frame whose
shoulders, hips, knees and ankles are present; on such frames the
guarded metrics still degrade to `0` when their extra landmarks
(foot index, elbow, wrist) are missing.  The hip and knee angle calls
remain unguarded, so a frame missing one of the eight core points
aborts the evaluation. -/
theorem evaluation_total_on_core_points (lm : Fin 33 -> Option Coord)
    (stepRule : StepDef) (h : ∀ i ∈ corePoints, (lm i).isSome = true) :
    (∃ r, evaluateStepP lm stepRule = .ok r) ∧
      ∀ r, evaluateStepP lm stepRule = .ok r →
        (lm 31 = none → r.metrics.left_ankle_angle = 0) ∧
        (lm 32 = none → r.metrics.right_ankle_angle = 0) ∧
        (lm 13 = none →
          r.metrics.left_elbow_angle = 0 ∧
            r.metrics.left_shoulder_angle = 0) ∧
        (lm 14 = none →
          r.metrics.right_elbow_angle = 0 ∧
            r.metrics.right_shoulder_angle = 0) := by
  obtain ⟨a11, h11⟩ := Option.isSome_iff_exists.mp (h 11 (by decide))
  obtain ⟨a12, h12⟩ := Option.isSome_iff_exists.mp (h 12 (by decide))
  obtain ⟨a23, h23⟩ := Option.isSome_iff_exists.mp (h 23 (by decide))
  obtain ⟨a24, h24⟩ := Option.isSome_iff_exists.mp (h 24 (by decide))
  obtain ⟨a25, h25⟩ := Option.isSome_iff_exists.mp (h 25 (by decide))
  obtain ⟨a26, h26⟩ := Option.isSome_iff_exists.mp (h 26 (by decide))
  obtain ⟨a27, h27⟩ := Option.isSome_iff_exists.mp (h 27 (by decide))
  obtain ⟨a28, h28⟩ := Option.isSome_iff_exists.mp (h 28 (by decide))
  constructor
  · simp only [evaluateStepP, h11, h12, h23, h24, h25, h26, h27, h28,
      calcAngleE, exBind_ok, exPure_eq]
    exact ⟨_, rfl⟩
  · intro r hr
    simp only [evaluateStepP, h11, h12, h23, h24, h25, h26, h27, h28,
      calcAngleE, exBind_ok, exPure_eq, Except.ok.injEq] at hr
    subst hr
    refine ⟨?_, ?_, ?_, ?_⟩
    · intro h31
      simp [h31, guardedAngle_none_right]
    · intro h32
      simp [h32, guardedAngle_none_right]
    · intro h13
      constructor <;> simp [h13, guardedAngle_none_mid, guardedAngle_none_right]
    · intro h14
      constructor <;> simp [h14, guardedAngle_none_mid, guardedAngle_none_right]

theorem evaluation_total_on_core_points_witness :
    (∀ i ∈ corePoints,
        ((fun i : Fin 33 => if i ∈ corePoints then some zCoord else none) i).isSome
          = true) ∧
      ((∃ r, evaluateStepP
          (fun i : Fin 33 => if i ∈ corePoints then some zCoord else none)
          stepPass = .ok r) ∧
        ∀ r, evaluateStepP
            (fun i : Fin 33 => if i ∈ corePoints then some zCoord else none)
            stepPass = .ok r →
          ((fun i : Fin 33 => if i ∈ corePoints then some zCoord else none) 31
              = none → r.metrics.left_ankle_angle = 0) ∧
          ((fun i : Fin 33 => if i ∈ corePoints then some zCoord else none) 32
              = none → r.metrics.right_ankle_angle = 0) ∧
          ((fun i : Fin 33 => if i ∈ corePoints then some zCoord else none) 13
              = none → r.metrics.left_elbow_angle = 0 ∧
              r.metrics.left_shoulder_angle = 0) ∧
          ((fun i : Fin 33 => if i ∈ corePoints then some zCoord else none) 14
              = none → r.metrics.right_elbow_angle = 0 ∧
              r.metrics.right_shoulder_angle = 0)) :=
  ⟨by decide,
    evaluation_total_on_core_points
      (fun i : Fin 33 => if i ∈ corePoints then some zCoord else none)
      stepPass (by decide)⟩

/-! ## Claim C9 -/

/-- `atan2` lands in `(-π, π]`. -/
theorem atan2_range (y x : ℝ) :
    -Real.pi < atan2 y x ∧ atan2 y x ≤ Real.pi := by
  have hpi := Real.pi_pos
  have harctan_lt := Real.arctan_lt_pi_div_two (y / x)
  have harctan_gt := Real.neg_pi_div_two_lt_arctan (y / x)
  unfold atan2
  split_ifs with h1 h2 h3 h4 h5
  · constructor <;> linarith
  · -- x < 0, 0 ≤ y: y / x ≤ 0 so arctan (y / x) ≤ 0
    have hq : y / x ≤ 0 := div_nonpos_iff.mpr (Or.inl ⟨h3, h2.le⟩)
    have hle : Real.arctan (y / x) ≤ Real.arctan 0 :=
      Real.arctan_strictMono.monotone hq
    rw [Real.arctan_zero] at hle
    constructor <;> linarith
  · -- x < 0, y < 0: y / x > 0 so arctan (y / x) > 0
    have hq : 0 < y / x := div_pos_iff.mpr (Or.inr ⟨by linarith, h2⟩)
    have hgt : Real.arctan 0 < Real.arctan (y / x) :=
      Real.arctan_strictMono hq
    rw [Real.arctan_zero] at hgt
    constructor <;> linarith
  · constructor <;> linarith
  · constructor <;> linarith
  · constructor <;> linarith

/-- C9: on any landmark points, `calculateAngle` always returns a value
in `[0, 180]` and is symmetric in its outer arguments
(`Angle(a,b,c) = Angle(c,b,a)`).  Determinism is immediate: the
embedding is a pure function of its three arguments. -/
theorem angle_in_range_and_symmetric (a b c : Coord) :
    0 ≤ calculateAngle a b c ∧ calculateAngle a b c ≤ 180 ∧
      calculateAngle a b c = calculateAngle c b a := by
  have hpi := Real.pi_pos
  set A := atan2 ((c.y : ℝ) - (b.y : ℝ)) ((c.x : ℝ) - (b.x : ℝ)) with hA
  set B := atan2 ((a.y : ℝ) - (b.y : ℝ)) ((a.x : ℝ) - (b.x : ℝ)) with hB
  obtain ⟨hA1, hA2⟩ := atan2_range ((c.y : ℝ) - (b.y : ℝ)) ((c.x : ℝ) - (b.x : ℝ))
  obtain ⟨hB1, hB2⟩ := atan2_range ((a.y : ℝ) - (b.y : ℝ)) ((a.x : ℝ) - (b.x : ℝ))
  rw [← hA] at hA1 hA2
  rw [← hB] at hB1 hB2
  have habs : |A - B| < 2 * Real.pi := abs_lt.mpr ⟨by linarith, by linarith⟩
  have hdeg : |(A - B) * 180 / Real.pi| = |A - B| * 180 / Real.pi := by
    rw [abs_div, abs_mul, abs_of_pos hpi]
    norm_num
  have hlt360 : |A - B| * 180 / Real.pi < 360 := by
    rw [div_lt_iff₀ hpi]
    nlinarith [abs_nonneg (A - B)]
  have hnonneg : 0 ≤ |A - B| * 180 / Real.pi := by positivity
  have h0 : calculateAngle a b c =
      (if 180 < |(A - B) * 180 / Real.pi| then 360 - |(A - B) * 180 / Real.pi|
        else |(A - B) * 180 / Real.pi|) := rfl
  have h1 : calculateAngle c b a =
      (if 180 < |(B - A) * 180 / Real.pi| then 360 - |(B - A) * 180 / Real.pi|
        else |(B - A) * 180 / Real.pi|) := rfl
  have hBA : |(B - A) * 180 / Real.pi| = |(A - B) * 180 / Real.pi| := by
    rw [show B - A = -(A - B) by ring, neg_mul, neg_div, abs_neg]
  refine ⟨?_, ?_, ?_⟩
  · rw [h0, hdeg]
    split_ifs with h
    · linarith
    · linarith
  · rw [h0, hdeg]
    split_ifs with h
    · linarith
    · linarith
  · rw [h0, h1, hBA]

/-! ## State-machine helper lemmas -/

@[simp] theorem backFlatVideoCtl_currentStepIdx (b : Bool) (st : StepDef)
    (d : ℚ) (s : PipelineState) :
    (backFlatVideoCtl b st d s).currentStepIdx = s.currentStepIdx := by
  unfold backFlatVideoCtl
  dsimp only
  split_ifs <;> rfl

@[simp] theorem backFlatVideoCtl_stableCounter (b : Bool) (st : StepDef)
    (d : ℚ) (s : PipelineState) :
    (backFlatVideoCtl b st d s).stableCounter = s.stableCounter := by
  unfold backFlatVideoCtl
  dsimp only
  split_ifs <;> rfl

@[simp] theorem backFlatVideoCtl_feedback (b : Bool) (st : StepDef)
    (d : ℚ) (s : PipelineState) :
    (backFlatVideoCtl b st d s).feedback = s.feedback := by
  unfold backFlatVideoCtl
  dsimp only
  split_ifs <;> rfl

@[simp] theorem backFlatVideoCtl_lastFeedbackTime (b : Bool) (st : StepDef)
    (d : ℚ) (s : PipelineState) :
    (backFlatVideoCtl b st d s).lastFeedbackTime = s.lastFeedbackTime := by
  unfold backFlatVideoCtl
  dsimp only
  split_ifs <;> rfl

@[simp] theorem backFlatVideoCtl_videoPresent (b : Bool) (st : StepDef)
    (d : ℚ) (s : PipelineState) :
    (backFlatVideoCtl b st d s).videoPresent = s.videoPresent := by
  unfold backFlatVideoCtl
  dsimp only
  split_ifs <;> rfl

@[simp] theorem backFlatVideoCtl_metricsOut (b : Bool) (st : StepDef)
    (d : ℚ) (s : PipelineState) :
    (backFlatVideoCtl b st d s).metricsOut = s.metricsOut := by
  unfold backFlatVideoCtl
  dsimp only
  split_ifs <;> rfl

@[simp] theorem backFlatVideoCtl_landmarkBuffer (b : Bool) (st : StepDef)
    (d : ℚ) (s : PipelineState) :
    (backFlatVideoCtl b st d s).landmarkBuffer = s.landmarkBuffer := by
  unfold backFlatVideoCtl
  dsimp only
  split_ifs <;> rfl

@[simp] theorem fbCooldown_currentStepIdx (s : PipelineState) (n : ℤ) :
    (fbCooldown s n).currentStepIdx = s.currentStepIdx := by
  unfold fbCooldown
  split_ifs <;> rfl

@[simp] theorem fbCooldown_stableCounter (s : PipelineState) (n : ℤ) :
    (fbCooldown s n).stableCounter = s.stableCounter := by
  unfold fbCooldown
  split_ifs <;> rfl

@[simp] theorem fbCooldown_instructionMessage (s : PipelineState) (n : ℤ) :
    (fbCooldown s n).instructionMessage = s.instructionMessage := by
  unfold fbCooldown
  split_ifs <;> rfl

@[simp] theorem fbCooldown_instructionType (s : PipelineState) (n : ℤ) :
    (fbCooldown s n).instructionType = s.instructionType := by
  unfold fbCooldown
  split_ifs <;> rfl

@[simp] theorem fbCooldown_feedback (s : PipelineState) (n : ℤ) :
    (fbCooldown s n).feedback = s.feedback := by
  unfold fbCooldown
  split_ifs <;> rfl

@[simp] theorem fbCooldown_metricsOut (s : PipelineState) (n : ℤ) :
    (fbCooldown s n).metricsOut = s.metricsOut := by
  unfold fbCooldown
  split_ifs <;> rfl

@[simp] theorem catchUpBranch_metricsOut (vs : StepDef) (vi : ℕ)
    (p : Bool) (n : ℤ) (s2 : PipelineState) :
    (catchUpBranch vs vi p n s2).metricsOut = s2.metricsOut := by
  unfold catchUpBranch
  cases p <;> simp

@[simp] theorem catchUpBranch_false_currentStepIdx (vs : StepDef) (vi : ℕ)
    (n : ℤ) (s2 : PipelineState) :
    (catchUpBranch vs vi false n s2).currentStepIdx = s2.currentStepIdx := by
  simp [catchUpBranch]

@[simp] theorem catchUpBranch_false_instructionMessage (vs : StepDef)
    (vi : ℕ) (n : ℤ) (s2 : PipelineState) :
    (catchUpBranch vs vi false n s2).instructionMessage =
      .followTheVideo vs.step_name := by
  simp [catchUpBranch]

@[simp] theorem catchUpBranch_true_currentStepIdx (vs : StepDef) (vi : ℕ)
    (n : ℤ) (s2 : PipelineState) :
    (catchUpBranch vs vi true n s2).currentStepIdx = vi := by
  simp [catchUpBranch]

@[simp] theorem catchUpBranch_true_stableCounter (vs : StepDef) (vi : ℕ)
    (n : ℤ) (s2 : PipelineState) :
    (catchUpBranch vs vi true n s2).stableCounter = 0 := by
  simp [catchUpBranch]

theorem stableSection_false (rules : Ruleset) (vi si : ℕ) (t : ℚ)
    (s2 : PipelineState) :
    stableSection rules vi si t false s2 = { s2 with stableCounter := 0 } := by
  simp [stableSection]

/-- Where `stableSection` can move the tracked index: either it leaves
it alone, or all the advancement conditions held and it became
`videoStepIndex + 1` with the counter reset. -/
theorem stableSection_idx (rules : Ruleset) (vi si : ℕ) (t : ℚ) (p : Bool)
    (s2 : PipelineState) :
    (stableSection rules vi si t p s2).currentStepIdx = s2.currentStepIdx ∨
      ((stableSection rules vi si t p s2).currentStepIdx = vi + 1 ∧
        p = true ∧ si = vi ∧
        REQUIRED_STABLE_FRAMES ≤ s2.stableCounter + 1 ∧
        (rules.steps.getD (vi + 1) defaultStep).start_time ≤ t ∧
        (stableSection rules vi si t p s2).stableCounter = 0) := by
  unfold stableSection
  cases p
  · simp
  · rw [if_pos rfl]
    dsimp only
    split_ifs with h1 h2 h3 h4 h5
    · right
      exact ⟨rfl, rfl, h1.1, by simpa using h1.2, h3, rfl⟩
    all_goals exact Or.inl rfl

/-- The hold branch of `stableSection`: at the video-current step with
the counter at threshold but the video short of the next step's
`start_time`, the index stays put, and the banner is the hold message
exactly when the rounded remaining time is positive. -/
theorem stableSection_hold (rules : Ruleset) (vi si : ℕ) (t : ℚ)
    (s2 : PipelineState) (hsi : si = vi)
    (hcnt : REQUIRED_STABLE_FRAMES ≤ s2.stableCounter + 1)
    (hlen : vi < rules.steps.length - 1)
    (ht : t < (rules.steps.getD (vi + 1) defaultStep).start_time) :
    (stableSection rules vi si t true s2).currentStepIdx =
        s2.currentStepIdx ∧
      (0 < jsRound ((rules.steps.getD (vi + 1) defaultStep).start_time - t) →
        (stableSection rules vi si t true s2).instructionMessage =
          .holdFor (jsRound ((rules.steps.getD (vi + 1)
            defaultStep).start_time - t))) ∧
      (jsRound ((rules.steps.getD (vi + 1) defaultStep).start_time - t) ≤ 0 →
        (stableSection rules vi si t true s2).instructionMessage =
          .greatFormKeepHolding) := by
  unfold stableSection
  dsimp only
  rw [if_pos rfl, if_pos ⟨hsi, by simpa using hcnt⟩, if_pos hlen,
    if_neg (not_le.mpr ht)]
  split_ifs with htl
  · exact ⟨rfl, fun _ => rfl, fun hc => absurd htl (not_lt.mpr hc)⟩
  · exact ⟨rfl, fun hc => absurd hc htl, fun _ => rfl⟩

@[simp] theorem feedbackSection_currentStepIdx (m : MetricsSnapshot)
    (vs : StepDef) (sc mx : ℕ) (p : Bool) (n : ℤ) (s3 : PipelineState) :
    (feedbackSection m vs sc mx p n s3).currentStepIdx =
      s3.currentStepIdx := by
  unfold feedbackSection
  cases p <;> dsimp only <;> split_ifs <;> simp

@[simp] theorem feedbackSection_stableCounter (m : MetricsSnapshot)
    (vs : StepDef) (sc mx : ℕ) (p : Bool) (n : ℤ) (s3 : PipelineState) :
    (feedbackSection m vs sc mx p n s3).stableCounter =
      s3.stableCounter := by
  unfold feedbackSection
  cases p <;> dsimp only <;> split_ifs <;> simp

theorem feedbackSection_true (m : MetricsSnapshot) (vs : StepDef)
    (sc mx : ℕ) (n : ℤ) (s3 : PipelineState) :
    feedbackSection m vs sc mx true n s3 =
      { s3 with feedback := .noFeedback } := by
  simp [feedbackSection]

/-! ## Claim C1 -/

/-- C1: in the active section, when the video-current step index
exceeds the user's tracked index and the video (present) is not paused
at the catch-up branch, the frame's evaluation is against the
video-current step (the published metrics are its metrics); a failing
evaluation leaves the tracked index unchanged and surfaces the
catch-up banner, while a passing one snaps the tracked index to the
video-current index and resets the stability counter. -/
theorem video_ahead_catch_up (rules : Ruleset) (mount : ℤ)
    (startedSnap : Bool) (s : PipelineState) (inp : FrameInput)
    (hgt : s.currentStepIdx < vIdxOf rules s inp)
    (hvp : s.videoPresent = true)
    (hpz : pausedAtBranch rules startedSnap s inp = false) :
    (activePart rules mount startedSnap s inp).metricsOut =
        (evalOf rules s inp).metrics ∧
      (isPassingOf rules s inp = false →
        (activePart rules mount startedSnap s inp).currentStepIdx =
            s.currentStepIdx ∧
          (activePart rules mount startedSnap s inp).instructionMessage =
            .followTheVideo (vStepOf rules s inp).step_name) ∧
      (isPassingOf rules s inp = true →
        (activePart rules mount startedSnap s inp).currentStepIdx =
            vIdxOf rules s inp ∧
          (activePart rules mount startedSnap s inp).stableCounter = 0) := by
  have hpz' : (backFlatVideoCtl startedSnap (vStepOf rules s inp)
      (evalOf rules s inp).metrics.back_flatness_deviation
      { s with metricsOut := (evalOf rules s inp).metrics }).videoPaused =
      false := hpz
  have hip : isPassingOf rules s inp =
      decide (ceil04 (evalOf rules s inp).maxScore ≤
        (evalOf rules s inp).score) := rfl
  simp only [activePart]
  rw [if_pos ⟨by simpa using hgt, by simpa using hvp, hpz'⟩]
  rw [← hip]
  cases hb : isPassingOf rules s inp
  · simp [hb]
  · simp [hb]

theorem video_ahead_catch_up_witness :
    (sActive.currentStepIdx < vIdxOf rulesFail sActive
        { landmarks := zRaw, now := 6000, videoTime := 15 } ∧
      sActive.videoPresent = true ∧
      pausedAtBranch rulesFail true sActive
        { landmarks := zRaw, now := 6000, videoTime := 15 } = false) ∧
      ((activePart rulesFail 0 true sActive
          { landmarks := zRaw, now := 6000, videoTime := 15 }).metricsOut =
        (evalOf rulesFail sActive
          { landmarks := zRaw, now := 6000, videoTime := 15 }).metrics ∧
      (isPassingOf rulesFail sActive
          { landmarks := zRaw, now := 6000, videoTime := 15 } = false →
        (activePart rulesFail 0 true sActive
            { landmarks := zRaw, now := 6000, videoTime := 15 }).currentStepIdx =
            sActive.currentStepIdx ∧
          (activePart rulesFail 0 true sActive
            { landmarks := zRaw, now := 6000, videoTime := 15 }).instructionMessage
            = .followTheVideo (vStepOf rulesFail sActive
              { landmarks := zRaw, now := 6000, videoTime := 15 }).step_name) ∧
      (isPassingOf rulesFail sActive
          { landmarks := zRaw, now := 6000, videoTime := 15 } = true →
        (activePart rulesFail 0 true sActive
            { landmarks := zRaw, now := 6000, videoTime := 15 }).currentStepIdx =
            vIdxOf rulesFail sActive
              { landmarks := zRaw, now := 6000, videoTime := 15 } ∧
          (activePart rulesFail 0 true sActive
            { landmarks := zRaw, now := 6000, videoTime := 15 }).stableCounter
            = 0)) :=
  ⟨⟨by decide, by decide, by decide⟩,
    video_ahead_catch_up rulesFail 0 true sActive
      { landmarks := zRaw, now := 6000, videoTime := 15 }
      (by decide) (by decide) (by decide)⟩


/-! ## Concrete evaluation lemmas for the zero pose -/

theorem stripFrame_zRaw : stripFrame zRaw = zF := rfl

theorem smoothFrame_replicate_zF : smoothFrame (List.replicate 5 zF) = zF := by
  funext i
  show _ = zCoord
  simp [smoothFrame, zF, zCoord, List.map_replicate, SMOOTHING_FRAMES]

theorem evaluateStep_zF_pass :
    (evaluateStep zF stepPass).score = 1 ∧
      (evaluateStep zF stepPass).maxScore = 1 := by
  constructor <;>
    norm_num [evaluateStep, stepPass, tally, checkRange, backFlatAdjust,
      bufferPercent, zF, zCoord]

theorem evaluateStep_zF_passB :
    (evaluateStep zF stepPassB).score = 1 ∧
      (evaluateStep zF stepPassB).maxScore = 1 := by
  constructor <;>
    norm_num [evaluateStep, stepPassB, tally, checkRange, backFlatAdjust,
      bufferPercent, zF, zCoord]

theorem evaluateStep_zF_failB :
    (evaluateStep zF stepFailB).score = 0 ∧
      (evaluateStep zF stepFailB).maxScore = 1 := by
  constructor <;>
    norm_num [evaluateStep, stepFailB, tally, checkRange, backFlatAdjust,
      bufferPercent, zF, zCoord]

/-! ## Claim C2 -/

/-- State for the C2 counterexample: mid-exercise, nine consecutive
passing frames already counted. -/
noncomputable def sC2 : PipelineState := { sActive with stableCounter := 9 }

/-- Input for the C2 counterexample: video at `9.75 s`, a quarter of a
second before step 2's declared `start_time` of `10 s`. -/
def inpC2 : FrameInput :=
  { landmarks := zRaw, now := 6000, videoTime := 39 / 4 }

theorem vIdx_C2 : vIdxOf rulesPass sC2 inpC2 = 0 := by
  norm_num [vIdxOf, videoStepScan, vTimeOf, sC2, sActive, inpC2, rulesPass,
    stepPass, stepPassB, List.findIdx?_cons]

theorem vStep_C2 : vStepOf rulesPass sC2 inpC2 = stepPass := by
  rw [vStepOf, vIdx_C2]
  rfl

theorem evalOf_C2 : evalOf rulesPass sC2 inpC2 = evaluateStep zF stepPass := by
  rw [evalOf, vStep_C2,
    show sC2.landmarkBuffer = List.replicate 5 zF from rfl,
    smoothFrame_replicate_zF]

theorem isPassing_C2 : isPassingOf rulesPass sC2 inpC2 = true := by
  rw [isPassingOf, evalOf_C2, evaluateStep_zF_pass.1, evaluateStep_zF_pass.2]
  rfl

/-- C2 counterexample: the user has completed 10 consecutive passing
frames on the video-current step (index 0), the video has not yet
reached step 2's `start_time` — the index correctly does not advance,
but no remaining-hold-time message is shown: with only a quarter second
left, `Math.round(start_time - t) = 0` fails the `timeLeft > 0` guard
and the banner stays at the generic holding message, contradicting the
claim's "a remaining-hold-time message is shown instead". -/
theorem hold_message_skipped_when_rounding_to_zero :
    isPassingOf rulesPass sC2 inpC2 = true ∧
      REQUIRED_STABLE_FRAMES ≤ sC2.stableCounter + 1 ∧
      sC2.currentStepIdx = vIdxOf rulesPass sC2 inpC2 ∧
      vTimeOf sC2 inpC2 < (nextStepOf rulesPass sC2 inpC2).start_time ∧
      (activePart rulesPass 0 true sC2 inpC2).currentStepIdx =
        sC2.currentStepIdx ∧
      (activePart rulesPass 0 true sC2 inpC2).instructionMessage =
        .greatFormKeepHolding := by
  have hnext : nextStepOf rulesPass sC2 inpC2 = stepPassB := by
    rw [nextStepOf, vIdx_C2]
    rfl
  have ht : vTimeOf sC2 inpC2 < (nextStepOf rulesPass sC2 inpC2).start_time := by
    rw [hnext]
    norm_num [vTimeOf, sC2, sActive, inpC2, stepPassB]
  have hround : jsRound ((nextStepOf rulesPass sC2 inpC2).start_time -
      vTimeOf sC2 inpC2) ≤ 0 := by
    rw [hnext]
    have : (stepPassB.start_time - vTimeOf sC2 inpC2) = 1 / 4 := by
      norm_num [vTimeOf, sC2, sActive, inpC2, stepPassB]
    rw [this, jsRound]
    norm_num
  refine ⟨isPassing_C2, by norm_num [sC2, sActive, REQUIRED_STABLE_FRAMES],
    by rw [vIdx_C2]; rfl, ht, ?_, ?_⟩
  · simp only [activePart]
    rw [if_neg (by
      rintro ⟨hlt, -, -⟩
      rw [backFlatVideoCtl_currentStepIdx, vIdx_C2] at hlt
      simp at hlt)]
    rw [if_neg (by norm_num [inpC2])]
    rw [feedbackSection_currentStepIdx]
    rw [← isPassingOf, isPassing_C2]
    have hh := stableSection_hold rulesPass (vIdxOf rulesPass sC2 inpC2)
      (backFlatVideoCtl true (vStepOf rulesPass sC2 inpC2)
        (evalOf rulesPass sC2 inpC2).metrics.back_flatness_deviation
        { sC2 with metricsOut := (evalOf rulesPass sC2 inpC2).metrics }).currentStepIdx
      (vTimeOf sC2 inpC2)
      (backFlatVideoCtl true (vStepOf rulesPass sC2 inpC2)
        (evalOf rulesPass sC2 inpC2).metrics.back_flatness_deviation
        { sC2 with metricsOut := (evalOf rulesPass sC2 inpC2).metrics })
      (by rw [backFlatVideoCtl_currentStepIdx]; simpa using (vIdx_C2).symm)
      (by rw [backFlatVideoCtl_stableCounter]
          norm_num [sC2, sActive, REQUIRED_STABLE_FRAMES])
      (by rw [vIdx_C2]; norm_num [rulesPass])
      (by exact ht)
    rw [hh.1, backFlatVideoCtl_currentStepIdx]
  · simp only [activePart]
    rw [if_neg (by
      rintro ⟨hlt, -, -⟩
      rw [backFlatVideoCtl_currentStepIdx, vIdx_C2] at hlt
      simp at hlt)]
    rw [if_neg (by norm_num [inpC2])]
    rw [← isPassingOf, isPassing_C2, feedbackSection_true]
    have hh := stableSection_hold rulesPass (vIdxOf rulesPass sC2 inpC2)
      (backFlatVideoCtl true (vStepOf rulesPass sC2 inpC2)
        (evalOf rulesPass sC2 inpC2).metrics.back_flatness_deviation
        { sC2 with metricsOut := (evalOf rulesPass sC2 inpC2).metrics }).currentStepIdx
      (vTimeOf sC2 inpC2)
      (backFlatVideoCtl true (vStepOf rulesPass sC2 inpC2)
        (evalOf rulesPass sC2 inpC2).metrics.back_flatness_deviation
        { sC2 with metricsOut := (evalOf rulesPass sC2 inpC2).metrics })
      (by rw [backFlatVideoCtl_currentStepIdx]; simpa using (vIdx_C2).symm)
      (by rw [backFlatVideoCtl_stableCounter]
          norm_num [sC2, sActive, REQUIRED_STABLE_FRAMES])
      (by rw [vIdx_C2]; norm_num [rulesPass])
      (by exact ht)
    exact hh.2.2 hround

/-- C2 (amended): with the user's tracked step at or ahead of the
video-current step and the mount-relative grace period over, the
tracked index changes only by advancing exactly one, and only on a
frame where the user is at the video-current step, passing, with the
stability counter at 10 counting this frame, and with the video time at
or past the next step's declared `start_time`; on advancement the
counter resets to 0.  If the video has not reached that `start_time`
the index does not advance, and the remaining-hold-time message is
shown provided the rounded remaining time is positive (with less than
half a second left the rounding yields 0 and the generic holding banner
stays — see the counterexample). -/
theorem stable_advance_gated (rules : Ruleset) (mount : ℤ)
    (startedSnap : Bool) (s : PipelineState) (inp : FrameInput)
    (hge : vIdxOf rules s inp ≤ s.currentStepIdx)
    (hgrace : 5000 ≤ inp.now - mount) :
    ((activePart rules mount startedSnap s inp).currentStepIdx ≠
        s.currentStepIdx →
      (activePart rules mount startedSnap s inp).currentStepIdx =
          s.currentStepIdx + 1 ∧
        s.currentStepIdx = vIdxOf rules s inp ∧
        isPassingOf rules s inp = true ∧
        REQUIRED_STABLE_FRAMES ≤ s.stableCounter + 1 ∧
        (nextStepOf rules s inp).start_time ≤ vTimeOf s inp ∧
        (activePart rules mount startedSnap s inp).stableCounter = 0) ∧
      (isPassingOf rules s inp = true →
        s.currentStepIdx = vIdxOf rules s inp →
        REQUIRED_STABLE_FRAMES ≤ s.stableCounter + 1 →
        vIdxOf rules s inp < rules.steps.length - 1 →
        vTimeOf s inp < (nextStepOf rules s inp).start_time →
        (activePart rules mount startedSnap s inp).currentStepIdx =
            s.currentStepIdx ∧
          (0 < jsRound ((nextStepOf rules s inp).start_time - vTimeOf s inp) →
            (activePart rules mount startedSnap s inp).instructionMessage =
              .holdFor (jsRound ((nextStepOf rules s inp).start_time -
                vTimeOf s inp)))) := by
  have hip : isPassingOf rules s inp =
      decide (ceil04 (evalOf rules s inp).maxScore ≤
        (evalOf rules s inp).score) := rfl
  simp only [activePart]
  rw [if_neg (by
    rintro ⟨hlt, -, -⟩
    rw [backFlatVideoCtl_currentStepIdx] at hlt
    simp only [PipelineState.currentStepIdx] at hlt
    omega)]
  rw [if_neg (not_lt.mpr hgrace)]
  rw [← hip]
  set S := backFlatVideoCtl startedSnap (vStepOf rules s inp)
    (evalOf rules s inp).metrics.back_flatness_deviation
    { s with metricsOut := (evalOf rules s inp).metrics } with hS
  have hSidx : S.currentStepIdx = s.currentStepIdx := by
    rw [hS, backFlatVideoCtl_currentStepIdx]
  have hScnt : S.stableCounter = s.stableCounter := by
    rw [hS, backFlatVideoCtl_stableCounter]
  constructor
  · intro hne
    rw [feedbackSection_currentStepIdx] at hne
    rcases stableSection_idx rules (vIdxOf rules s inp) S.currentStepIdx
        (vTimeOf s inp) (isPassingOf rules s inp) S with
      h | ⟨h1, h2, h3, h4, h5, h6⟩
    · exact absurd (h.trans hSidx) hne
    · rw [hSidx] at h3
      refine ⟨?_, h3, h2, ?_, h5, ?_⟩
      · rw [feedbackSection_currentStepIdx, h1, h3]
      · rw [hScnt] at h4
        exact h4
      · rw [feedbackSection_stableCounter, h6]
  · intro hp hsi hcnt hlen ht
    have hh := stableSection_hold rules (vIdxOf rules s inp)
      S.currentStepIdx (vTimeOf s inp) S
      (by rw [hSidx]; exact hsi)
      (by rw [hScnt]; exact hcnt) hlen ht
    constructor
    · rw [feedbackSection_currentStepIdx, hp]
      rw [hh.1, hSidx]
    · intro hpos
      rw [hp, feedbackSection_true]
      exact hh.2.1 hpos

theorem stable_advance_gated_witness :
    (vIdxOf rulesPass sC2 inpC2 ≤ sC2.currentStepIdx ∧
      (5000 : ℤ) ≤ inpC2.now - 0) ∧
      (((activePart rulesPass 0 true sC2 inpC2).currentStepIdx ≠
          sC2.currentStepIdx →
        (activePart rulesPass 0 true sC2 inpC2).currentStepIdx =
            sC2.currentStepIdx + 1 ∧
          sC2.currentStepIdx = vIdxOf rulesPass sC2 inpC2 ∧
          isPassingOf rulesPass sC2 inpC2 = true ∧
          REQUIRED_STABLE_FRAMES ≤ sC2.stableCounter + 1 ∧
          (nextStepOf rulesPass sC2 inpC2).start_time ≤ vTimeOf sC2 inpC2 ∧
          (activePart rulesPass 0 true sC2 inpC2).stableCounter = 0) ∧
      (isPassingOf rulesPass sC2 inpC2 = true →
        sC2.currentStepIdx = vIdxOf rulesPass sC2 inpC2 →
        REQUIRED_STABLE_FRAMES ≤ sC2.stableCounter + 1 →
        vIdxOf rulesPass sC2 inpC2 < rulesPass.steps.length - 1 →
        vTimeOf sC2 inpC2 < (nextStepOf rulesPass sC2 inpC2).start_time →
        (activePart rulesPass 0 true sC2 inpC2).currentStepIdx =
            sC2.currentStepIdx ∧
          (0 < jsRound ((nextStepOf rulesPass sC2 inpC2).start_time -
              vTimeOf sC2 inpC2) →
            (activePart rulesPass 0 true sC2 inpC2).instructionMessage =
              .holdFor (jsRound ((nextStepOf rulesPass sC2 inpC2).start_time -
                vTimeOf sC2 inpC2))))) :=
  ⟨⟨by rw [vIdx_C2]; exact Nat.zero_le _, by norm_num [inpC2]⟩,
    stable_advance_gated rulesPass 0 true sC2 inpC2
      (by rw [vIdx_C2]; exact Nat.zero_le _) (by norm_num [inpC2])⟩

/-! ## Claim C3 -/

theorem visPhase_currentStepIdx (rules : Ruleset) (s : PipelineState)
    (inp : FrameInput) :
    (visPhase rules s inp).currentStepIdx = s.currentStepIdx := by
  unfold visPhase visWarn
  dsimp only
  split_ifs <;> rfl

theorem visPhase_videoPresent (rules : Ruleset) (s : PipelineState)
    (inp : FrameInput) :
    (visPhase rules s inp).videoPresent = s.videoPresent := by
  unfold visPhase visWarn
  dsimp only
  split_ifs <;> rfl

/-- `vIdxOf` only reads `videoPresent` and `currentStepIdx` from the
state. -/
theorem vIdxOf_congr (rules : Ruleset) (s' s : PipelineState)
    (inp : FrameInput) (h1 : s'.videoPresent = s.videoPresent)
    (h2 : s'.currentStepIdx = s.currentStepIdx) :
    vIdxOf rules s' inp = vIdxOf rules s inp := by
  unfold vIdxOf vTimeOf videoStepScan
  rw [h1, h2]

/-- Where the active section can move the tracked index: unchanged, a
snap forward to a strictly larger video-current index, or an increment
by one. -/
theorem activePart_idx (rules : Ruleset) (mount : ℤ) (startedSnap : Bool)
    (s : PipelineState) (inp : FrameInput) :
    (activePart rules mount startedSnap s inp).currentStepIdx =
        s.currentStepIdx ∨
      ((activePart rules mount startedSnap s inp).currentStepIdx =
          vIdxOf rules s inp ∧
        s.currentStepIdx < vIdxOf rules s inp) ∨
      (activePart rules mount startedSnap s inp).currentStepIdx =
        s.currentStepIdx + 1 := by
  simp only [activePart]
  split_ifs with h1 h2
  · cases hp : decide (ceil04 (evalOf rules s inp).maxScore ≤
        (evalOf rules s inp).score)
    · left
      rw [catchUpBranch_false_currentStepIdx,
        backFlatVideoCtl_currentStepIdx]
    · right
      left
      rw [catchUpBranch_true_currentStepIdx]
      refine ⟨rfl, ?_⟩
      have := h1.1
      rwa [backFlatVideoCtl_currentStepIdx] at this
  · left
    rw [backFlatVideoCtl_currentStepIdx]
  · rw [feedbackSection_currentStepIdx]
    rcases stableSection_idx rules (vIdxOf rules s inp)
        (backFlatVideoCtl startedSnap (vStepOf rules s inp)
          (evalOf rules s inp).metrics.back_flatness_deviation
          { s with metricsOut := (evalOf rules s inp).metrics }).currentStepIdx
        (vTimeOf s inp)
        (decide (ceil04 (evalOf rules s inp).maxScore ≤
          (evalOf rules s inp).score))
        (backFlatVideoCtl startedSnap (vStepOf rules s inp)
          (evalOf rules s inp).metrics.back_flatness_deviation
          { s with metricsOut := (evalOf rules s inp).metrics }) with
      h | ⟨ha, -, hb, -, -, -⟩
    · left
      rw [h, backFlatVideoCtl_currentStepIdx]
    · right
      right
      rw [ha]
      rw [backFlatVideoCtl_currentStepIdx] at hb
      have hb2 : s.currentStepIdx = vIdxOf rules s inp := hb
      omega
  
theorem frameStep_idx (rules : Ruleset) (mount : ℤ) (s : PipelineState)
    (inp : FrameInput) :
    (frameStep rules mount s inp).currentStepIdx = s.currentStepIdx ∨
      ((frameStep rules mount s inp).currentStepIdx = vIdxOf rules s inp ∧
        s.currentStepIdx < vIdxOf rules s inp) ∨
      (frameStep rules mount s inp).currentStepIdx = s.currentStepIdx + 1 := by
  unfold frameStep exercisePhase
  cases hready : s.readyToStartS
  · rw [if_neg (by simp)]
    left
    exact visPhase_currentStepIdx rules s inp
  · rw [if_pos rfl]
    dsimp only
    set s1 : PipelineState :=
      { visPhase rules s inp with
        landmarkBuffer :=
          pushTrim (visPhase rules s inp).landmarkBuffer
            (stripFrame inp.landmarks) } with hs1
    have hidx : s1.currentStepIdx = s.currentStepIdx := by
      rw [hs1]
      exact visPhase_currentStepIdx rules s inp
    have hvp : s1.videoPresent = s.videoPresent := by
      rw [hs1]
      exact visPhase_videoPresent rules s inp
    have hvi : vIdxOf rules s1 inp = vIdxOf rules s inp :=
      vIdxOf_congr rules s1 s inp hvp hidx
    split_ifs
    · rcases activePart_idx rules mount s.exerciseStartedS s1 inp with
        h | ⟨ha, hb⟩ | h
      · left
        rw [h, hidx]
      · right
        left
        rw [ha, hvi]
        rw [hidx, hvi] at hb
        exact ⟨rfl, hb⟩
      · right
        right
        rw [h, hidx]
    · left
      exact hidx

/-- C3: within the per-frame pipeline (no restart event), every
mutation of the tracked step index leaves it unchanged, sets it to a
strictly larger video-current index, or increments it by one — and
therefore `currentStepIndex` is non-decreasing across any processed
frame sequence. -/
theorem step_index_monotone (rules : Ruleset) (mount : ℤ) :
    (∀ s inp,
      (frameStep rules mount s inp).currentStepIdx = s.currentStepIdx ∨
        ((frameStep rules mount s inp).currentStepIdx = vIdxOf rules s inp ∧
          s.currentStepIdx < vIdxOf rules s inp) ∨
        (frameStep rules mount s inp).currentStepIdx =
          s.currentStepIdx + 1) ∧
      ∀ s (l : List FrameInput),
        s.currentStepIdx ≤ (runFrames rules mount s l).currentStepIdx := by
  refine ⟨frameStep_idx rules mount, ?_⟩
  intro s l
  induction l generalizing s with
  | nil => exact le_refl _
  | cons i t ih =>
    have hstep : s.currentStepIdx ≤ (frameStep rules mount s i).currentStepIdx := by
      rcases frameStep_idx rules mount s i with h | ⟨ha, hb⟩ | h <;> omega
    exact le_trans hstep (ih (frameStep rules mount s i))

/-! ## Claim C7 -/

theorem checkBodyVisibility_zRaw : checkBodyVisibility zRaw = true := by
  norm_num [checkBodyVisibility, requiredPoints, zRaw, zLm,
    Bool.and_eq_true, decide_eq_true_eq]

/-- State in the Confirming phase with 29 consecutive good frames
already counted. -/
noncomputable def sConfirm : PipelineState :=
  { currentStepIdx := 0, stableCounter := 0, visibilityCheckFrames := 29
    exerciseStartedR := false, readyToStartS := false
    exerciseStartedS := false, isBodyVisibleS := false
    landmarkBuffer := [], lastFeedbackTime := 0
    lastVisibilityWarning := 0, lastSpokenStep := none
    instructionMessage := .initialPositioning
    instructionType := .positioning, feedback := .noFeedback
    metricsOut := zMetrics, videoPresent := true, videoPaused := true
    exerciseStartClock := none }

/-- A good frame at wall-clock 0 with the video at 0. -/
def inpGood : FrameInput := { landmarks := zRaw, now := 0, videoTime := 0 }

/-- C7 counterexample: on the frame where the consecutive-good-frame
counter reaches exactly 30, the exercise is NOT declared started — the
source requires `visibilityCheckFrames > 30`, so the start fires only
on the 31st consecutive good frame, contradicting "declared started
exactly when the counter reaches 30". -/
theorem counter_at_30_does_not_start :
    (frameStep rulesPass 0 sConfirm inpGood).visibilityCheckFrames = 30 ∧
      (frameStep rulesPass 0 sConfirm inpGood).exerciseStartedR = false := by
  have hvis : checkBodyVisibility inpGood.landmarks = true :=
    checkBodyVisibility_zRaw
  have hdist : checkCameraDistance rulesPass
      (calculateCameraDistance inpGood.landmarks) = .unknown := rfl
  constructor <;>
  · simp only [frameStep, exercisePhase, visPhase, hvis, hdist]
    norm_num [sConfirm]
    rfl

/-- C7 (amended): in the Confirming state (gate passing, exercise not
yet started, not yet flagged ready), the exercise is declared started
exactly when the consecutive-good-frame counter exceeds 30 — that is,
on the 31st consecutive good frame — and while confirming the reported
fractional progress equals `min(count / 30, 1)`. -/
theorem confirmation_starts_past_30 (rules : Ruleset) (mount : ℤ)
    (s : PipelineState) (inp : FrameInput)
    (hvis : checkBodyVisibility inp.landmarks = true)
    (hc : checkCameraDistance rules (calculateCameraDistance inp.landmarks) ≠
      .too_close)
    (hf : checkCameraDistance rules (calculateCameraDistance inp.landmarks) ≠
      .too_far)
    (hstart : s.exerciseStartedR = false)
    (hready : s.readyToStartS = false) :
    ((frameStep rules mount s inp).exerciseStartedR = true ↔
        30 < s.visibilityCheckFrames + 1) ∧
      (s.visibilityCheckFrames + 1 ≤ 30 →
        (frameStep rules mount s inp).instructionMessage =
          .holdStillConfirming
            (jsRound (confirmProgress (s.visibilityCheckFrames + 1) * 100))) ∧
      ∀ c : ℕ, confirmProgress c = min ((c : ℚ) / 30) 1 := by
  unfold frameStep exercisePhase
  rw [if_neg (by rw [hready]; simp)]
  unfold visPhase
  dsimp only
  rw [hvis, if_pos rfl, if_neg hc, if_neg hf, hstart]
  simp only [Bool.not_false, if_true]
  by_cases h30 : 30 < s.visibilityCheckFrames + 1
  · rw [if_pos ⟨h30, hready⟩]
    exact ⟨by simpa using h30, fun hle => absurd h30 (by omega), fun _ => rfl⟩
  · rw [if_neg (by rintro ⟨h, -⟩; exact h30 h)]
    refine ⟨?_, fun _ => rfl, fun _ => rfl⟩
    constructor
    · intro hcontra
      exact absurd (show (false : Bool) = true from hcontra) (by simp)
    · intro h
      exact absurd h h30

theorem confirmation_starts_past_30_witness :
    (checkBodyVisibility inpGood.landmarks = true ∧
      checkCameraDistance rulesPass
        (calculateCameraDistance inpGood.landmarks) ≠ .too_close ∧
      checkCameraDistance rulesPass
        (calculateCameraDistance inpGood.landmarks) ≠ .too_far ∧
      sConfirm.exerciseStartedR = false ∧ sConfirm.readyToStartS = false) ∧
      (((frameStep rulesPass 0 sConfirm inpGood).exerciseStartedR = true ↔
        30 < sConfirm.visibilityCheckFrames + 1) ∧
      (sConfirm.visibilityCheckFrames + 1 ≤ 30 →
        (frameStep rulesPass 0 sConfirm inpGood).instructionMessage =
          .holdStillConfirming
            (jsRound (confirmProgress (sConfirm.visibilityCheckFrames + 1) *
              100))) ∧
      ∀ c : ℕ, confirmProgress c = min ((c : ℚ) / 30) 1) :=
  ⟨⟨checkBodyVisibility_zRaw, by decide, by decide, rfl, rfl⟩,
    confirmation_starts_past_30 rulesPass 0 sConfirm inpGood
      checkBodyVisibility_zRaw (by decide) (by decide) rfl rfl⟩

/-! ## Claim C8 -/

@[simp] theorem catchUpBranch_true_instructionMessage (vs : StepDef)
    (vi : ℕ) (n : ℤ) (s2 : PipelineState) :
    (catchUpBranch vs vi true n s2).instructionMessage =
      .matchingTheVideo vs.step_name := by
  simp [catchUpBranch]

/-- C8 (amended): in the active section, for a frame where the user's
tracked step is at or ahead of the video-current step (so the catch-up
branch does not run) and whose wall-clock time is less than 5 seconds
after COMPONENT MOUNT (the code's `exerciseStartTime` is captured at
mount, not when the exercise actually starts), no scoring-based
feedback is produced and no advancement occurs: the tracked index,
stability counter, feedback and spoken-feedback timestamp are
unchanged and the neutral in-progress banner is shown. -/
theorem grace_from_mount_suppresses (rules : Ruleset) (mount : ℤ)
    (startedSnap : Bool) (s : PipelineState) (inp : FrameInput)
    (hle : vIdxOf rules s inp ≤ s.currentStepIdx)
    (hgrace : inp.now - mount < 5000) :
    (activePart rules mount startedSnap s inp).currentStepIdx =
        s.currentStepIdx ∧
      (activePart rules mount startedSnap s inp).stableCounter =
        s.stableCounter ∧
      (activePart rules mount startedSnap s inp).feedback = s.feedback ∧
      (activePart rules mount startedSnap s inp).lastFeedbackTime =
        s.lastFeedbackTime ∧
      (activePart rules mount startedSnap s inp).instructionMessage =
        .inProgress := by
  simp only [activePart]
  rw [if_neg (by
    rintro ⟨hlt, -, -⟩
    rw [backFlatVideoCtl_currentStepIdx] at hlt
    simp only [PipelineState.currentStepIdx] at hlt
    omega)]
  rw [if_pos hgrace]
  refine ⟨?_, ?_, ?_, ?_, rfl⟩
  · show (backFlatVideoCtl _ _ _ _).currentStepIdx = _
    rw [backFlatVideoCtl_currentStepIdx]
  · show (backFlatVideoCtl _ _ _ _).stableCounter = _
    rw [backFlatVideoCtl_stableCounter]
  · show (backFlatVideoCtl _ _ _ _).feedback = _
    rw [backFlatVideoCtl_feedback]
  · show (backFlatVideoCtl _ _ _ _).lastFeedbackTime = _
    rw [backFlatVideoCtl_lastFeedbackTime]

theorem grace_from_mount_suppresses_witness :
    (vIdxOf rulesPass sActive { landmarks := zRaw, now := 1000, videoTime := 1 }
        ≤ sActive.currentStepIdx ∧
      (1000 : ℤ) - 0 < 5000) ∧
      ((activePart rulesPass 0 true sActive
          { landmarks := zRaw, now := 1000, videoTime := 1 }).currentStepIdx =
        sActive.currentStepIdx ∧
      (activePart rulesPass 0 true sActive
          { landmarks := zRaw, now := 1000, videoTime := 1 }).stableCounter =
        sActive.stableCounter ∧
      (activePart rulesPass 0 true sActive
          { landmarks := zRaw, now := 1000, videoTime := 1 }).feedback =
        sActive.feedback ∧
      (activePart rulesPass 0 true sActive
          { landmarks := zRaw, now := 1000, videoTime := 1 }).lastFeedbackTime =
        sActive.lastFeedbackTime ∧
      (activePart rulesPass 0 true sActive
          { landmarks := zRaw, now := 1000, videoTime := 1 }).instructionMessage =
        .inProgress) :=
  ⟨⟨by decide, by decide⟩,
    grace_from_mount_suppresses rulesPass 0 true sActive
      { landmarks := zRaw, now := 1000, videoTime := 1 }
      (by decide) (by decide)⟩

/-- Mid-exercise state whose ghost clock records that the exercise was
declared started at wall-clock 10 s (e.g. after a slow positioning
phase); the component itself was mounted at wall-clock 0. -/
noncomputable def sC8 : PipelineState :=
  { sActive with exerciseStartClock := some 10000 }

/-- A frame arriving 2 s after the exercise start (12 s after mount),
with the reference video already inside step 2's window. -/
def inp8 : FrameInput := { landmarks := zRaw, now := 12000, videoTime := 15 }

/-- The state after the visibility block on that frame. -/
noncomputable def sC8v : PipelineState :=
  { sC8 with visibilityCheckFrames := 41, isBodyVisibleS := true }

/-- C8 counterexample: a frame processed 2 seconds after the exercise
was declared started (well inside the claimed 5-second grace window)
snaps the tracked step index forward and shows a non-neutral banner:
the grace check measures from component mount (12 s ago here), and the
catch-up branch runs before the grace check in any case.  So
scoring-based feedback and step advancement do occur within 5 seconds
of exercise start. -/
theorem advancement_during_claimed_grace :
    sC8.exerciseStartClock = some 10000 ∧
      inp8.now - 10000 < 5000 ∧
      sC8.currentStepIdx = 0 ∧
      (frameStep rulesPass 0 sC8 inp8).currentStepIdx = 1 ∧
      (frameStep rulesPass 0 sC8 inp8).instructionMessage =
        .matchingTheVideo "leg_lift" := by
  have hvis : checkBodyVisibility inp8.landmarks = true :=
    checkBodyVisibility_zRaw
  have hdist : checkCameraDistance rulesPass
      (calculateCameraDistance inp8.landmarks) = .unknown := rfl
  have hv : visPhase rulesPass sC8 inp8 = sC8v := by
    simp only [visPhase, hvis, hdist]
    norm_num [sC8, sC8v, sActive]
    rfl
  have hframe : frameStep rulesPass 0 sC8 inp8 =
      activePart rulesPass 0 sC8.exerciseStartedS sC8v inp8 := by
    unfold frameStep exercisePhase
    rw [hv, if_pos (show sC8.readyToStartS = true from rfl)]
    rfl
  have hvi : vIdxOf rulesPass sC8v inp8 = 1 := by decide
  have hstep : vStepOf rulesPass sC8v inp8 = stepPassB := by
    rw [vStepOf, hvi]
    rfl
  have heval : evalOf rulesPass sC8v inp8 = evaluateStep zF stepPassB := by
    rw [evalOf, hstep,
      show sC8v.landmarkBuffer = List.replicate 5 zF from rfl,
      smoothFrame_replicate_zF]
  have hpass : isPassingOf rulesPass sC8v inp8 = true := by
    rw [isPassingOf, heval, evaluateStep_zF_passB.1, evaluateStep_zF_passB.2]
    rfl
  have hip : isPassingOf rulesPass sC8v inp8 =
      decide (ceil04 (evalOf rulesPass sC8v inp8).maxScore ≤
        (evalOf rulesPass sC8v inp8).score) := rfl
  refine ⟨rfl, by norm_num [inp8], rfl, ?_, ?_⟩ <;>
  · rw [hframe]
    simp only [activePart]
    rw [if_pos ⟨by decide, by decide, by decide⟩]
    rw [← hip, hpass]
    simp [hvi, hstep, stepPassB]
